import Mathlib

/-!
Verification of the Mindhive dialogue-engine repository.

The Python sources are shallowly embedded here:
- `src/Question_2/planner.py` : the planner `decide_action`.
- `src/Question_3/server.py` : the calculator service (`calc_api`).
- `src/Question_3/calculator_tool.py` : the HTTP adapter with retry.
- `src/Question_1/sequential_conversation.py` : the sequential bot, its
  memory, entity extraction and state handlers.
- `src/Question_3/agentic_bot.py` : the calculator bot.

Modelling conventions: Python strings are `List Char` (wrappers take
`String`); Python dicts are association lists; the wall clock and the
network are passed in explicitly as parameters; Python `float` arithmetic
is modelled with `ℚ` (exact for every value the claims mention); fallible
Python code returns `Except`.
-/

namespace Mindhive

/-! ### Python string utilities -/

/-- Characters treated as whitespace by Python `str.strip` / regex `\s`
(ASCII fragment, which covers every string in the sources). -/
def pyIsSpace (c : Char) : Bool :=
  c == ' ' || c == '\t' || c == '\n' || c == '\r' || c == '\x0b' || c == '\x0c'

/-- Python `str.strip()`. -/
def pyStrip (l : List Char) : List Char :=
  ((l.dropWhile pyIsSpace).reverse.dropWhile pyIsSpace).reverse

/-- Python `str.lower()` (ASCII). -/
def lowerCL (l : List Char) : List Char := l.map Char.toLower

/-- Boolean prefix test on character lists. -/
def prefixCL : List Char → List Char → Bool
  | [], _ => true
  | _ :: _, [] => false
  | a :: as, b :: bs => a == b && prefixCL as bs

/-- Python substring containment `needle in hay`. -/
def containsSub (needle hay : List Char) : Bool :=
  if prefixCL needle hay then true
  else
    match hay with
    | [] => false
    | _ :: t => containsSub needle t

/-- Python `sub in s` on `String`s. -/
def strContains (needle hay : String) : Bool := containsSub needle.data hay.data

/-- Python `str.replace(old, new)` for single characters, used as
`math_expr.replace(' ', '')` via `new = none`. -/
def removeChar (c : Char) (l : List Char) : List Char := l.filter (fun x => x != c)

/-- Python `', '.join(names)`. -/
def joinComma : List String → String
  | [] => ""
  | [s] => s
  | s :: rest => s ++ ", " ++ joinComma rest

/-- Python `str.title()`: first letter of each alphabetic run is upper-cased,
the rest lower-cased. -/
def titleGo : Bool → List Char → List Char
  | _, [] => []
  | prevAlpha, c :: t =>
    if c.isAlpha then
      (if prevAlpha then c.toLower else c.toUpper) :: titleGo true t
    else
      c :: titleGo false t

/-- Python `str.title()`. -/
def pyTitle (l : List Char) : List Char := titleGo false l

/-- Python `str.replace('_', ' ')` followed by `.title()`, as used for region
names in replies. -/
def regionTitle (s : String) : String :=
  String.mk (pyTitle (s.data.map (fun c => if c == '_' then ' ' else c)))

/-! ### Planner (`src/Question_2/planner.py`, `decide_action`) -/

/-- `Action` enum from `planner.py`. -/
inductive Action where
  | ASK_FOLLOWUP
  | CALL_CALCULATOR
  | CALL_RAG
  | CALL_TEXT2SQL
  | FINISH
  deriving DecidableEq, Repr

/-- `decide_action(state, intents, missing_slots)` from `planner.py`
lines 16-26, branch for branch.  The `state` argument is received but,
as in the source, never inspected. -/
def decide_action (state : String) (intents : List String)
    (missing_slots : List String) : Action :=
  if ¬ missing_slots.isEmpty then Action.ASK_FOLLOWUP
  else if intents.contains "calc_intent" then Action.CALL_CALCULATOR
  else if intents.contains "product_query" then Action.CALL_RAG
  else if intents.contains "outlet_query" then Action.CALL_TEXT2SQL
  else Action.FINISH

/-! ### Calculator service (`src/Question_3/server.py`, `calc_api`)

The extraction regex
`(\d+(\.\d+)?\s*[+\-*/]\s*\d+(\.\d+)?(\s*[+\-*/]\s*\d+(\.\d+)?)*)|(\(\s*\d+(\.\d+)?\s*[+\-*/]\s*\d+(\.\d+)?\s*\)(\s*[+\-*/]\s*\d+(\.\d+)?)*)`
is embedded as deterministic maximal-munch scanners.  For this regex
greedy scanning coincides with Python backtracking semantics: no
character class overlaps the class that follows it (digits vs operator,
whitespace vs operator), so giving back characters can never enable a
later sub-pattern. -/

/-- Operator character class `[\+\-\*\/]`. -/
def isOpChar (c : Char) : Bool := c == '+' || c == '-' || c == '*' || c == '/'

/-- Maximal `\d+`; fails on zero digits. -/
def scanDigits (l : List Char) : Option (List Char × List Char) :=
  let ds := l.takeWhile Char.isDigit
  if ds.isEmpty then none else some (ds, l.drop ds.length)

/-- `\d+(?:\.\d+)?`. -/
def scanNum (l : List Char) : Option (List Char × List Char) :=
  match scanDigits l with
  | none => none
  | some (ds, rest) =>
    match rest with
    | '.' :: r2 =>
      match scanDigits r2 with
      | some (fs, r3) => some (ds ++ '.' :: fs, r3)
      | none => some (ds, rest)
    | _ => some (ds, rest)

/-- Maximal `\s*` (split). -/
def scanWsStar (l : List Char) : List Char × List Char :=
  (l.takeWhile pyIsSpace, l.dropWhile pyIsSpace)

/-- `\s*[\+\-\*\/]\s*\d+(?:\.\d+)?`, one iteration of the trailing group. -/
def scanOpNum (l : List Char) : Option (List Char × List Char) :=
  let (w1, r1) := scanWsStar l
  match r1 with
  | c :: r2 =>
    if isOpChar c then
      let (w2, r3) := scanWsStar r2
      match scanNum r3 with
      | some (n, r4) => some (w1 ++ c :: (w2 ++ n), r4)
      | none => none
    else none
  | [] => none

/-- Greedy `(\s*[\+\-\*\/]\s*\d+(?:\.\d+)?)*`; each iteration consumes at
least the operator character, so `l.length` fuel is enough. -/
def scanOpNumStarF : Nat → List Char → List Char × List Char
  | 0, l => ([], l)
  | fuel + 1, l =>
    match scanOpNum l with
    | none => ([], l)
    | some (m, r) =>
      let (m2, r2) := scanOpNumStarF fuel r
      (m ++ m2, r2)

/-- Greedy star of `scanOpNum`. -/
def scanOpNumStar (l : List Char) : List Char × List Char :=
  scanOpNumStarF l.length l

/-- `\d+(?:\.\d+)?\s*[\+\-\*\/]\s*\d+(?:\.\d+)?` (the `simple_pattern`). -/
def scanSimpleAt (l : List Char) : Option (List Char × List Char) :=
  match scanNum l with
  | none => none
  | some (n1, r1) =>
    match scanOpNum r1 with
    | none => none
    | some (m, r2) => some (n1 ++ m, r2)

/-- First alternative of `math_pattern`: the simple pattern plus the
greedy trailing group. -/
def scanAlt1At (l : List Char) : Option (List Char × List Char) :=
  match scanSimpleAt l with
  | none => none
  | some (m, r) =>
    let (m2, r2) := scanOpNumStar r
    some (m ++ m2, r2)

/-- Second alternative of `math_pattern`:
`\(\s*\d+(?:\.\d+)?\s*[\+\-\*\/]\s*\d+(?:\.\d+)?\s*\)(\s*[\+\-\*\/]\s*\d+(?:\.\d+)?)*`. -/
def scanAlt2At (l : List Char) : Option (List Char × List Char) :=
  match l with
  | '(' :: r1 =>
    let (w1, r2) := scanWsStar r1
    match scanNum r2 with
    | some (n1, r3) =>
      let (w2, r4) := scanWsStar r3
      match r4 with
      | c :: r5 =>
        if isOpChar c then
          let (w3, r6) := scanWsStar r5
          match scanNum r6 with
          | some (n2, r7) =>
            let (w4, r8) := scanWsStar r7
            match r8 with
            | ')' :: r9 =>
              let (m2, r10) := scanOpNumStar r9
              some ('(' :: (w1 ++ n1 ++ w2 ++ c :: (w3 ++ n2 ++ w4 ++ ')' :: m2)), r10)
            | _ => none
          | none => none
        else none
      | [] => none
    | none => none
  | _ => none

/-- Both alternatives of `math_pattern` at one start position, preferring
the first as Python does. -/
def findMathAt (l : List Char) : Option (List Char) :=
  match scanAlt1At l with
  | some (m, _) => some m
  | none =>
    match scanAlt2At l with
    | some (m, _) => some m
    | none => none

/-- Leftmost match of `math_pattern` (`re.findall(...)[0]`). -/
def findMath : List Char → Option (List Char)
  | [] => findMathAt []
  | c :: t =>
    match findMathAt (c :: t) with
    | some m => some m
    | none => findMath t

/-- `simple_pattern` at one start position. -/
def findSimpleAt (l : List Char) : Option (List Char) :=
  match scanSimpleAt l with
  | some (m, _) => some m
  | none => none

/-- Leftmost match of `simple_pattern` (`re.search`). -/
def findSimple : List Char → Option (List Char)
  | [] => findSimpleAt []
  | c :: t =>
    match findSimpleAt (c :: t) with
    | some m => some m
    | none => findSimple t

/-! #### Python `eval` on the restricted arithmetic fragment

`calc_api` passes the extracted expression to `eval` with empty builtins.
After the allowed-character check the expression consists of digits,
`+ - * /`, `.`, parentheses and spaces only, so `eval` is ordinary
arithmetic evaluation: compile (tokenize and parse with Python operator
precedence), then run, where running can only raise `ZeroDivisionError`.
Numbers are modelled as exact unnormalised fractions (`Frac`), viewed in
`ℚ` through `Frac.toRat`; Python `float` true division is exact on every
value appearing in the claims. -/

/-- Exact unnormalised fraction: the numeric values flowing through the
calculator.  Every constructor used below keeps `den` positive. -/
structure Frac where
  num : Int
  den : Int
  deriving DecidableEq

/-- The rational value of a `Frac`. -/
def Frac.toRat (f : Frac) : ℚ := (f.num : ℚ) / (f.den : ℚ)

/-- A `Frac` from an integer. -/
def Frac.ofInt (n : Int) : Frac := ⟨n, 1⟩

def fAdd (a b : Frac) : Frac := ⟨a.num * b.den + b.num * a.den, a.den * b.den⟩

def fSub (a b : Frac) : Frac := ⟨a.num * b.den - b.num * a.den, a.den * b.den⟩

def fMul (a b : Frac) : Frac := ⟨a.num * b.num, a.den * b.den⟩

/-- Division, defined for a divisor with non-zero value (checked by the
caller, as Python raises `ZeroDivisionError` first). -/
def fDiv (a b : Frac) : Frac := ⟨a.num * b.den, a.den * b.num⟩

inductive MTok where
  | num (q : Frac)
  | op (c : Char)
  | lp
  | rp
  deriving DecidableEq

/-- Numeric value of `\d*` integer and fraction digit lists. -/
def digitsToNat (l : List Char) : Nat :=
  l.foldl (fun acc c => acc * 10 + (c.toNat - '0'.toNat)) 0

/-- Value of a numeric literal with integer part `ds` and fraction part `fs`. -/
def numVal (ds fs : List Char) : Frac :=
  ⟨(digitsToNat ds : Int) * (10 : Int) ^ fs.length + (digitsToNat fs : Int),
    (10 : Int) ^ fs.length⟩

/-- Tokenizer for the restricted arithmetic fragment; follows Python float
literal syntax (`5.`, `.5` and `5.3` are all literals).  Each step consumes
at least one character, so `l.length` fuel suffices. -/
def tokenizeF : Nat → List Char → Option (List MTok)
  | _, [] => some []
  | 0, _ :: _ => none
  | fuel + 1, c :: t =>
    if c == ' ' then tokenizeF fuel t
    else if c.isDigit then
      let ds := (c :: t).takeWhile Char.isDigit
      let r1 := (c :: t).dropWhile Char.isDigit
      match r1 with
      | '.' :: r2 =>
        let fs := r2.takeWhile Char.isDigit
        (tokenizeF fuel (r2.dropWhile Char.isDigit)).map
          (fun ts => MTok.num (numVal ds fs) :: ts)
      | _ => (tokenizeF fuel r1).map (fun ts => MTok.num (numVal ds []) :: ts)
    else if c == '.' then
      let fs := t.takeWhile Char.isDigit
      if fs.isEmpty then none
      else (tokenizeF fuel (t.dropWhile Char.isDigit)).map
        (fun ts => MTok.num (numVal [] fs) :: ts)
    else if isOpChar c then (tokenizeF fuel t).map (fun ts => MTok.op c :: ts)
    else if c == '(' then (tokenizeF fuel t).map (fun ts => MTok.lp :: ts)
    else if c == ')' then (tokenizeF fuel t).map (fun ts => MTok.rp :: ts)
    else none

/-- Tokenize a character list. -/
def tokenize (l : List Char) : Option (List MTok) := tokenizeF l.length l

inductive AOp where
  | add
  | sub
  | mul
  | divi
  deriving DecidableEq

/-- Abstract syntax of the compiled expression. -/
inductive AExp where
  | num (q : Frac)
  | bin (o : AOp) (l r : AExp)
  deriving DecidableEq

mutual

/-- `expr := term (('+' | '-') term)*`, left associative. -/
def pExpr : Nat → List MTok → Option (AExp × List MTok)
  | 0, _ => none
  | f + 1, ts =>
    match pTerm f ts with
    | some (e, r) => pExprLoop f e r
    | none => none

def pExprLoop : Nat → AExp → List MTok → Option (AExp × List MTok)
  | 0, _, _ => none
  | f + 1, acc, ts =>
    match ts with
    | MTok.op c :: r =>
      if c == '+' || c == '-' then
        match pTerm f r with
        | some (e, r2) =>
          pExprLoop f (AExp.bin (if c == '+' then AOp.add else AOp.sub) acc e) r2
        | none => none
      else some (acc, ts)
    | _ => some (acc, ts)

/-- `term := factor (('*' | '/') factor)*`, left associative. -/
def pTerm : Nat → List MTok → Option (AExp × List MTok)
  | 0, _ => none
  | f + 1, ts =>
    match pFact f ts with
    | some (e, r) => pTermLoop f e r
    | none => none

def pTermLoop : Nat → AExp → List MTok → Option (AExp × List MTok)
  | 0, _, _ => none
  | f + 1, acc, ts =>
    match ts with
    | MTok.op c :: r =>
      if c == '*' || c == '/' then
        match pFact f r with
        | some (e, r2) =>
          pTermLoop f (AExp.bin (if c == '*' then AOp.mul else AOp.divi) acc e) r2
        | none => none
      else some (acc, ts)
    | _ => some (acc, ts)

/-- `factor := number | '(' expr ')'`. -/
def pFact : Nat → List MTok → Option (AExp × List MTok)
  | 0, _ => none
  | f + 1, ts =>
    match ts with
    | MTok.num q :: r => some (AExp.num q, r)
    | MTok.lp :: r =>
      match pExpr f r with
      | some (e, MTok.rp :: r2) => some (e, r2)
      | _ => none
    | _ => none

end

/-- Parse a full token list; anything left over is a syntax error. -/
def parseToks (ts : List MTok) : Option AExp :=
  match pExpr (4 * (ts.length + 1)) ts with
  | some (e, []) => some e
  | _ => none

/-- Exceptions `eval` can raise here. -/
inductive PyExc where
  | zeroDivision
  | syntaxErr
  deriving DecidableEq

/-- Run a compiled expression; division by a zero value (numerator zero)
raises `ZeroDivisionError` exactly as in Python. -/
def evalA : AExp → Except PyExc Frac
  | AExp.num q => Except.ok q
  | AExp.bin o l r =>
    match evalA l with
    | Except.error e => Except.error e
    | Except.ok lv =>
      match evalA r with
      | Except.error e => Except.error e
      | Except.ok rv =>
        match o with
        | AOp.add => Except.ok (fAdd lv rv)
        | AOp.sub => Except.ok (fSub lv rv)
        | AOp.mul => Except.ok (fMul lv rv)
        | AOp.divi =>
          if rv.num = 0 then Except.error PyExc.zeroDivision else Except.ok (fDiv lv rv)

/-- Python `eval` on the restricted fragment: compile fully, then run. -/
def pyEval (l : List Char) : Except PyExc Frac :=
  match tokenize l with
  | none => Except.error PyExc.syntaxErr
  | some ts =>
    match parseToks ts with
    | none => Except.error PyExc.syntaxErr
    | some e => evalA e

/-- The restricted character set of `calc_api`
(`allowed_chars = set('0123456789+-*/.() ')`). -/
def allowedChar (c : Char) : Bool :=
  c.isDigit || c == '+' || c == '-' || c == '*' || c == '/' ||
    c == '.' || c == '(' || c == ')' || c == ' '

/-- Shared tail of `calc_api` after extraction: allowed-character check,
division-by-zero check before evaluation, then `eval`.  The message of the
generic `Invalid expression` branch embeds the Python exception text; it is
unreachable for extraction outputs and rendered here with the fixed
`invalid syntax` detail. -/
def calcApiTail (mathExpr : List Char) : Except String Frac :=
  if ¬ mathExpr.all allowedChar then Except.error "Invalid characters in expression"
  else if containsSub "/0".data (removeChar ' ' mathExpr) ||
      containsSub "/ 0".data mathExpr then
    Except.error "Division by zero is not allowed"
  else
    match pyEval mathExpr with
    | Except.ok r => Except.ok r
    | Except.error PyExc.zeroDivision => Except.error "Division by zero is not allowed"
    | Except.error PyExc.syntaxErr => Except.error "Invalid expression: invalid syntax"

/-- `calc_api(expr)` from `server.py` lines 29-82.  Errors are the raised
`ValueError` messages. -/
def calc_api (expr : List Char) : Except String Frac :=
  match findMath expr with
  | some m =>
    let mathExpr := pyStrip m
    let cleanedOriginal := pyStrip expr
    if cleanedOriginal ≠ mathExpr then Except.error "Invalid characters in expression"
    else calcApiTail mathExpr
  | none =>
    match findSimple expr with
    | some m => calcApiTail m
    | none => Except.error "No valid mathematical expression found"

/-- `calc_api` on a `String`. -/
def calcApiS (s : String) : Except String Frac := calc_api s.data

/-- `calc_api` viewed at its numeric (float) value. -/
def calcApiQ (s : String) : Except String ℚ := (calcApiS s).map Frac.toRat

/-! ### HTTP adapter (`src/Question_3/calculator_tool.py`)

The network is modelled explicitly: `NetResp` is what the POST to
`/calculate` produced as seen by the client, and `call_calculator` takes
the health-probe result and the response as parameters.  A per-attempt
response sequence `Nat → Except String Frac` models the underlying call
for the retry wrapper (exactly how the repository tests mock it). -/

/-- Outcome of `requests.post(CALC_URL, ...)` as seen by `call_calculator`. -/
inductive NetResp where
  | ok200 (result : Frac)
  | clientErr (detail : String)
  | serverErr
  | timeout
  | connRefused
  | reqExc (msg : String)
  | exc (msg : String)
  deriving DecidableEq

/-- `call_calculator(expr)` from `calculator_tool.py` lines 27-90, with the
health probe result and the network outcome passed in. -/
def call_calculator (expr : String) (healthy : Bool) (resp : NetResp) :
    Except String Frac :=
  if (pyStrip expr.data).isEmpty then
    Except.error "Please provide a mathematical expression to calculate."
  else if ¬ healthy then
    Except.error "Calculator service is not available. Please ensure the server is running."
  else
    match resp with
    | NetResp.ok200 r => Except.ok r
    | NetResp.clientErr d => Except.error ("Calculation error: " ++ d)
    | NetResp.serverErr =>
      Except.error "Calculator service is experiencing issues. Please try again later."
    | NetResp.timeout => Except.error "Calculator request timed out. Please try again."
    | NetResp.connRefused =>
      Except.error "Cannot connect to calculator service. Please ensure the server is running on localhost:8000."
    | NetResp.reqExc m => Except.error ("Network error calling calculator: " ++ m)
    | NetResp.exc m => Except.error ("Unexpected error calling calculator: " ++ m)

/-- The running server (`server.py` `/calculate` endpoint): request
validation (`CalcRequest`: non-empty, at most 100 characters, stripped),
then `calc_api`; a `ValueError` becomes a 4xx response whose detail is the
message.  (FastAPI wraps the two validator failures in a 422 response; all
that matters to the client is that they are 4xx-class.) -/
def serverRespond (expr : String) : NetResp :=
  if (pyStrip expr.data).isEmpty then NetResp.clientErr "Expression cannot be empty"
  else if expr.length > 100 then NetResp.clientErr "Expression too long"
  else
    match calc_api (pyStrip expr.data) with
    | Except.ok r => NetResp.ok200 r
    | Except.error m => NetResp.clientErr m

/-- One attempt against the live, healthy server. -/
def callCalculatorLive (expr : String) : Except String Frac :=
  call_calculator expr true (serverRespond expr)

/-- The non-retryable-error classification of `call_calculator_with_retry`:
`any(keyword in str(result).lower() for keyword in [...])`. -/
def isTerminalMsg (s : String) : Bool :=
  ["calculation error", "expression", "division by zero", "invalid"].any
    (fun k => containsSub k.data (lowerCL s.data))

/-- The `for attempt in range(max_retries + 1)` loop of
`call_calculator_with_retry` (`calculator_tool.py` lines 104-122):
`left` is the number of attempts still available after the current one.
The second component of the result counts how often the underlying call
was attempted. -/
def retryGo (call : Nat → Except String Frac) : Nat → Nat → Except String Frac × Nat
  | attempt, 0 => (call attempt, attempt + 1)
  | attempt, left + 1 =>
    match call attempt with
    | Except.ok v => (Except.ok v, attempt + 1)
    | Except.error m =>
      if isTerminalMsg m then (Except.error m, attempt + 1)
      else retryGo call (attempt + 1) left

/-- `call_calculator_with_retry(expr, max_retries)`; the underlying
per-attempt outcomes are the sequence `call`.  Returns the result together
with the number of attempts made. -/
def call_calculator_with_retry (call : Nat → Except String Frac)
    (max_retries : Nat) : Except String Frac × Nat :=
  retryGo call 0 max_retries

/-- The three transient (retryable) error replies of `call_calculator`:
timeout, connection refused, HTTP 5xx. -/
def transientMsgs : List String :=
  ["Calculator request timed out. Please try again.",
   "Cannot connect to calculator service. Please ensure the server is running on localhost:8000.",
   "Calculator service is experiencing issues. Please try again later."]

/-! ### Pattern matching machinery for the bot regexes

The extractor/handler regexes of `sequential_conversation.py`,
`agentic_bot.py` and `planner.py` are built from literals, character
classes, `\s+`, `\s*`, `\d+`, optional literal suffixes, `\b` and `.*`.
They are embedded as token lists matched by a deterministic maximal-munch
matcher, which agrees with Python backtracking on all of them: in each
pattern a greedy run is never followed by a sub-pattern accepting a
character of the same class (the one exception, `\d+.*\d+` inside
`what\s+is\s+\d+.*\d+`, is search-equivalent to `\d.*\d` and is embedded
that way).  Matching is case-insensitive (every compiled pattern in the
sources uses `re.IGNORECASE`; the case-sensitive uses involve only digits
and operators). -/

/-- Python regex `\w` (ASCII fragment), used for `\b`. -/
def isWordChar (c : Char) : Bool := c.isAlphanum || c == '_'

/-- One token of an embedded regex. -/
inductive PTok where
  | ch (c : Char)
  | cls (f : Char → Bool)
  | clsPlus (f : Char → Bool)
  | clsStar (f : Char → Bool)
  | opt (cs : List Char)
  | bdry

/-- Literal token sequence for a plain (lower-case) string. -/
def lit (s : String) : List PTok := s.data.map PTok.ch

/-- Case-insensitive prefix test (pattern characters are lower case). -/
def prefixCI : List Char → List Char → Bool
  | [], _ => true
  | _ :: _, [] => false
  | a :: as, b :: bs => b.toLower == a && prefixCI as bs

/-- Word-character status after consuming a run (for later `\b` tokens). -/
def pwAfterRun (pw : Bool) (run : List Char) : Bool :=
  match run.getLast? with
  | some c => isWordChar c
  | none => pw

/-- Match a token list at the head of `l`; `pw` says whether the character
just before `l` is a word character.  On success returns the updated `pw`
and the rest of the input. -/
def matchToks : List PTok → Bool → List Char → Option (Bool × List Char)
  | [], pw, l => some (pw, l)
  | PTok.ch c :: p, _, l =>
    match l with
    | x :: rest => if x.toLower == c then matchToks p (isWordChar x) rest else none
    | [] => none
  | PTok.cls f :: p, _, l =>
    match l with
    | x :: rest => if f x then matchToks p (isWordChar x) rest else none
    | [] => none
  | PTok.clsPlus f :: p, pw, l =>
    let run := l.takeWhile f
    if run.isEmpty then none
    else matchToks p (pwAfterRun pw run) (l.drop run.length)
  | PTok.clsStar f :: p, pw, l =>
    let run := l.takeWhile f
    matchToks p (pwAfterRun pw run) (l.drop run.length)
  | PTok.opt cs :: p, pw, l =>
    if prefixCI cs l then matchToks p (pwAfterRun pw cs) (l.drop cs.length)
    else matchToks p pw l
  | PTok.bdry :: p, pw, l =>
    let nextWord := match l.head? with | some c => isWordChar c | none => false
    if pw != nextWord then matchToks p pw l else none

/-- `re.search`: try the token list at every start position. -/
def searchGo (p : List PTok) : Bool → List Char → Bool
  | pw, l =>
    (matchToks p pw l).isSome ||
      match l with
      | [] => false
      | c :: t => searchGo p (isWordChar c) t

/-- `re.search` from the start of the string. -/
def searchToks (p : List PTok) (l : List Char) : Bool := searchGo p false l

/-- Search for `p`, with every scanned start position left of the match
required to be no newline: the continuation of a `.*`. -/
def searchNoNl (p : List PTok) : Bool → List Char → Bool
  | pw, l =>
    (matchToks p pw l).isSome ||
      match l with
      | [] => false
      | c :: t => if c == '\n' then false else searchNoNl p (isWordChar c) t

/-- `re.search` for `px.*py`: at each start position match `px`, then look
for `py` with no intervening newline. -/
def searchXY (px py : List PTok) : Bool → List Char → Bool
  | pw, l =>
    (match matchToks px pw l with
     | some (pw2, rest) => searchNoNl py pw2 rest
     | none => false) ||
      match l with
      | [] => false
      | c :: t => searchXY px py (isWordChar c) t

/-- One alternation branch of a compiled regex. -/
inductive RBranch where
  | toks (p : List PTok)
  | seqDot (px py : List PTok)

/-- Search one branch. -/
def searchBranch (b : RBranch) (l : List Char) : Bool :=
  match b with
  | RBranch.toks p => searchToks p l
  | RBranch.seqDot px py => searchXY px py false l

/-- Search a compiled regex (an alternation of branches). -/
def searchRx (branches : List RBranch) (l : List Char) : Bool :=
  branches.any (fun b => searchBranch b l)

/-- Anchored (`^...`) match of an alternation of token lists. -/
def anchoredSearch (branches : List (List PTok)) (l : List Char) : Bool :=
  branches.any (fun p => (matchToks p false l).isSome)

/-- Search an alternation of plain token lists (`searchAlts`). -/
def searchAlts (branches : List (List PTok)) (l : List Char) : Bool :=
  branches.any (fun p => searchToks p l)

/-! ### Outlet data (`src/Question_1/data.py`) -/

/-- `OutletInfo` dataclass. -/
structure OutletInfo where
  name : String
  location : String
  opening_time : String
  closing_time : String
  phone : String
  address : String
  deriving DecidableEq, Repr

def ss2Outlet : OutletInfo :=
  ⟨"SS 2 Outlet", "SS 2, Petaling Jaya", "9:00 AM", "10:00 PM",
   "+603-1234-5678", "123 SS 2/4, Petaling Jaya, Selangor"⟩

def pjCentralOutlet : OutletInfo :=
  ⟨"PJ Central Outlet", "PJ Central, Petaling Jaya", "10:00 AM", "9:00 PM",
   "+603-2345-6789", "456 PJ Central Mall, Petaling Jaya, Selangor"⟩

def klccOutlet : OutletInfo :=
  ⟨"KLCC Outlet", "KLCC, Kuala Lumpur", "10:00 AM", "10:00 PM",
   "+603-3456-7890", "789 KLCC Mall, Kuala Lumpur"⟩

/-- `OUTLETS_DB` from `data.py` (read-only, shared by every session). -/
def OUTLETS_DB : List (String × List OutletInfo) :=
  [("petaling_jaya", [ss2Outlet, pjCentralOutlet]),
   ("kuala_lumpur", [klccOutlet])]

/-- Python `OUTLETS_DB[key]` / `key in OUTLETS_DB`. -/
def dbLookup (k : String) : Option (List OutletInfo) :=
  (OUTLETS_DB.find? (fun kv => kv.1 == k)).map (fun kv => kv.2)

/-! ### Entity extraction (`sequential_conversation.py`, `EntityExtractor`) -/

/-- The entities dict returned by `EntityExtractor.extract`. -/
structure Entities where
  locations : List String
  intents : List String
  raw_text : String
  deriving DecidableEq, Repr

/-- `location_patterns`, in dict insertion order:
`petaling_jaya : (petaling\s+jaya|pj|ss\s*\d+)`,
`kuala_lumpur : (kuala\s+lumpur|kl|klcc)`, `ss2 : ss\s*2`,
`pj_central : pj\s+central`, `klcc : klcc`. -/
def locationPatternList : List (String × List (List PTok)) :=
  [("petaling_jaya",
     [lit "petaling" ++ [PTok.clsPlus pyIsSpace] ++ lit "jaya",
      lit "pj",
      lit "ss" ++ [PTok.clsStar pyIsSpace, PTok.clsPlus Char.isDigit]]),
   ("kuala_lumpur",
     [lit "kuala" ++ [PTok.clsPlus pyIsSpace] ++ lit "lumpur",
      lit "kl",
      lit "klcc"]),
   ("ss2", [lit "ss" ++ [PTok.clsStar pyIsSpace] ++ lit "2"]),
   ("pj_central", [lit "pj" ++ [PTok.clsPlus pyIsSpace] ++ lit "central"]),
   ("klcc", [lit "klcc"])]

/-- `intent_patterns`, in dict insertion order:
`outlet_inquiry : (outlets?|stores?|shops?|branch(es)?)`,
`opening_time : (opening|open|time|hours|when|closing)`,
`location : (where|location|address|located|exactly)`,
`phone : (phone|number|contact|call)`. -/
def intentPatternList : List (String × List (List PTok)) :=
  [("outlet_inquiry",
     [lit "outlet" ++ [PTok.opt ['s']],
      lit "store" ++ [PTok.opt ['s']],
      lit "shop" ++ [PTok.opt ['s']],
      lit "branch" ++ [PTok.opt ['e', 's']]]),
   ("opening_time",
     [lit "opening", lit "open", lit "time", lit "hours", lit "when", lit "closing"]),
   ("location",
     [lit "where", lit "location", lit "address", lit "located", lit "exactly"]),
   ("phone",
     [lit "phone", lit "number", lit "contact", lit "call"])]

/-- `EntityExtractor.extract` (`sequential_conversation.py` lines 124-144):
each matching pattern contributes its tag once, in pattern-table order. -/
def extract (text : String) : Entities :=
  { locations := (locationPatternList.filter (fun kv => searchAlts kv.2 text.data)).map
      (fun kv => kv.1)
    intents := (intentPatternList.filter (fun kv => searchAlts kv.2 text.data)).map
      (fun kv => kv.1)
    raw_text := text }

/-- A Python value as handed to `extract` by dynamically typed callers. -/
inductive PyVal where
  | str (s : String)
  | pyNone
  | int (n : Int)
  deriving DecidableEq

/-- `extract` under Python dynamic typing: `re.Pattern.search` raises
`TypeError` on a non-string argument, so the first pattern lookup raises
before any entity is collected. -/
def extractDyn (v : PyVal) : Except String Entities :=
  match v with
  | PyVal.str s => Except.ok (extract s)
  | _ => Except.error "TypeError: expected string or bytes-like object"

/-! ### Conversation memory (`sequential_conversation.py`) -/

/-- `ConversationState` enum. -/
inductive ConvState where
  | INITIAL
  | LOCATION_INQUIRY
  | OUTLET_SELECTION
  | INFORMATION_REQUEST
  | COMPLETED
  deriving DecidableEq, Repr

/-- A context value: the code stores region strings under
`inquiry_location` and `OutletInfo` records under `selected_outlet`. -/
inductive CtxVal where
  | str (s : String)
  | outlet (o : OutletInfo)
  deriving DecidableEq

/-- A Python dict with string keys, as an insertion-ordered association
list. -/
abbrev Ctx : Type := List (String × CtxVal)

/-- Dict write (replace in place or append). -/
def ctxSet (ctx : Ctx) (k : String) (v : CtxVal) : Ctx :=
  if ctx.any (fun kv => kv.1 == k) then
    ctx.map (fun kv => if kv.1 == k then (k, v) else kv)
  else ctx ++ [(k, v)]

/-- Dict read (`dict.get`). -/
def ctxGet (ctx : Ctx) (k : String) : Option CtxVal :=
  (ctx.find? (fun kv => kv.1 == k)).map (fun kv => kv.2)

/-- `ConversationTurn` dataclass.  The wall-clock timestamp is the `now`
argument threaded through `process_input`; the stored `state` is the enum
member whose `.value` string the source records. -/
structure ConversationTurn where
  turn_id : Nat
  timestamp : Nat
  user_input : String
  bot_response : String
  state : ConvState
  extracted_entities : Entities
  context_variables : Ctx
  deriving DecidableEq

/-- `ConversationMemory`.  The session id is drawn from a fresh-name
supply (modelling the timestamp-plus-uuid4 identifier, whose collisions
are assumed absent); `outlets_db` is the shared read-only `OUTLETS_DB`. -/
structure ConversationMemory where
  turns : List ConversationTurn
  current_state : ConvState
  context_variables : Ctx
  session_id : Nat

/-- `ConversationMemory.__init__` with a fresh session id. -/
def newMemory (fresh : Nat) : ConversationMemory :=
  { turns := [], current_state := ConvState.INITIAL, context_variables := [],
    session_id := fresh }

/-- `ConversationMemory.add_turn` (lines 48-64): appends a turn whose
`turn_id` is `len(self.turns) + 1` and whose `context_variables` is a copy
of the live dict. -/
def add_turn (m : ConversationMemory) (user_input bot_response : String)
    (extracted_entities : Entities) (now : Nat) : ConversationMemory :=
  { m with
    turns := m.turns ++
      [{ turn_id := m.turns.length + 1, timestamp := now,
         user_input := user_input, bot_response := bot_response,
         state := m.current_state, extracted_entities := extracted_entities,
         context_variables := m.context_variables }] }

/-- `ConversationMemory.update_context`. -/
def update_context (m : ConversationMemory) (k : String) (v : CtxVal) :
    ConversationMemory :=
  { m with context_variables := ctxSet m.context_variables k v }

/-- `ConversationMemory.get_context`. -/
def get_context (m : ConversationMemory) (k : String) : Option CtxVal :=
  ctxGet m.context_variables k

/-- `ConversationMemory.set_state`: unconditional overwrite. -/
def set_state (m : ConversationMemory) (s : ConvState) : ConversationMemory :=
  { m with current_state := s }

/-! ### State handlers (`SequentialConversationBot`) -/

/-- `_handle_information_request` (lines 343-371).  Only `OutletInfo`
values are ever stored under `selected_outlet`, so the falsy check
`if not selected_outlet` is the "absent" case. -/
def handleInformationRequest (m : ConversationMemory) (user_input : String)
    (entities : Entities) : ConversationMemory × String :=
  match get_context m "selected_outlet" with
  | some (CtxVal.outlet so) =>
    if ["thanks", "thank you", "bye", "goodbye"].any
        (fun w => containsSub w.data (lowerCL user_input.data)) then
      (set_state m ConvState.COMPLETED,
       "You're welcome! Feel free to ask if you need any other information about our outlets.")
    else if entities.intents.contains "opening_time" then
      (m, "Ah yes, the " ++ so.name ++ " opens at " ++ so.opening_time ++
          " and closes at " ++ so.closing_time ++
          ". Is there anything else you'd like to know?")
    else if entities.intents.contains "location" then
      (m, "The " ++ so.name ++ " address is " ++ so.address ++
          ". What else would you like to know?")
    else if entities.intents.contains "phone" then
      (m, "You can contact the " ++ so.name ++ " at " ++ so.phone ++
          ". Any other questions?")
    else
      (m, "Here's the information for " ++ so.name ++ ":\n" ++
          "Location: " ++ so.address ++ "\n" ++
          "Hours: " ++ so.opening_time ++ " - " ++ so.closing_time ++ "\n" ++
          "Phone: " ++ so.phone ++ "\n" ++
          "Is there anything specific you'd like to know?")
  | _ =>
    (m, "I'm sorry, I need to know which outlet you're asking about first.")

/-- The `outlet_patterns` table of `_handle_outlet_selection`; an empty
list models "name not in dict". -/
def outletSelPatterns (name : String) : List (List PTok) :=
  if name == "SS 2 Outlet" then
    [[PTok.bdry] ++ lit "ss" ++ [PTok.clsStar pyIsSpace] ++ lit "2" ++ [PTok.bdry],
     [PTok.bdry] ++ lit "ss2" ++ [PTok.bdry]]
  else if name == "PJ Central Outlet" then
    [[PTok.bdry] ++ lit "pj" ++ [PTok.clsPlus pyIsSpace] ++ lit "central" ++ [PTok.bdry],
     [PTok.bdry] ++ lit "pj" ++ [PTok.clsStar pyIsSpace] ++ lit "central" ++ [PTok.bdry],
     [PTok.bdry] ++ lit "central" ++ [PTok.bdry]]
  else if name == "KLCC Outlet" then
    [[PTok.bdry] ++ lit "klcc" ++ [PTok.bdry]]
  else []

/-- `\bss\s*2\b`, the positive part of the SS 2 validation. -/
def ssTwoPat : List PTok :=
  [PTok.bdry] ++ lit "ss" ++ [PTok.clsStar pyIsSpace] ++ lit "2" ++ [PTok.bdry]

/-- Continuation of `\bss\s*(?!2\b)\d+` after `\bss\s*`: the negative
lookahead fails exactly when the input continues with `2` followed by a
boundary; otherwise at least one digit must follow.  (Backtracking into
`\s*` cannot help: a shorter space run leaves a space where `\d+` needs a
digit.) -/
def ssNeg (rest : List Char) : Bool :=
  match rest with
  | [] => false
  | c :: t =>
    if c == '2' then
      match t.head? with
      | some d => isWordChar d
      | none => false
    else c.isDigit

/-- `re.search(r'\bss\s*(?!2\b)\d+', ...)`: the guard against matching a
differently numbered SS outlet. -/
def ssOtherGo : Bool → List Char → Bool
  | pw, l =>
    (match matchToks ([PTok.bdry] ++ lit "ss" ++ [PTok.clsStar pyIsSpace]) pw l with
     | some (_, rest) => ssNeg rest
     | none => false) ||
      match l with
      | [] => false
      | c :: t => ssOtherGo (isWordChar c) t

def ssOtherNumber (l : List Char) : Bool := ssOtherGo false l

/-- The outlet-matching loop of `_handle_outlet_selection` (lines 310-322),
including the SS 2 special validation which, when it fails, lets the loop
continue with the next outlet. -/
def selectOutlet (outlets : List OutletInfo) (userLower : List Char) :
    Option OutletInfo :=
  match outlets with
  | [] => none
  | o :: rest =>
    let pats := outletSelPatterns o.name
    if pats.isEmpty then selectOutlet rest userLower
    else if searchAlts pats userLower then
      if containsSub "SS 2 Outlet".data o.name.data then
        if searchToks ssTwoPat userLower && ¬ ssOtherNumber userLower then some o
        else selectOutlet rest userLower
      else some o
    else selectOutlet rest userLower

/-- The help message at the bottom of `_handle_outlet_selection`
(lines 334-341). -/
def outletSelectionHelp (m : ConversationMemory) : ConversationMemory × String :=
  match get_context m "inquiry_location" with
  | some (CtxVal.str loc) =>
    match dbLookup loc with
    | some outlets =>
      (m, "We don't have that outlet in " ++ regionTitle loc ++ ". Our " ++
          regionTitle loc ++ " outlets are: " ++
          joinComma (outlets.map (fun o => o.name)) ++ ".")
    | none =>
      (m, "I'm not sure which outlet you're referring to. Could you please specify which outlet you're interested in?")
  | _ =>
    (m, "I'm not sure which outlet you're referring to. Could you please specify which outlet you're interested in?")

/-- `_handle_outlet_selection` (lines 292-341). -/
def handleOutletSelection (m : ConversationMemory) (user_input : String)
    (entities : Entities) : ConversationMemory × String :=
  let userLower := pyStrip (lowerCL user_input.data)
  match get_context m "inquiry_location" with
  | some (CtxVal.str loc) =>
    match dbLookup loc with
    | some outlets =>
      match selectOutlet outlets userLower with
      | some so =>
        let m1 := update_context m "selected_outlet" (CtxVal.outlet so)
        if ["opening_time", "phone", "location"].any
            (fun i => entities.intents.contains i) then
          handleInformationRequest (set_state m1 ConvState.INFORMATION_REQUEST)
            user_input entities
        else
          (set_state m1 ConvState.INFORMATION_REQUEST,
           "Perfect! You're asking about the " ++ so.name ++
             ". What would you like to know about it?")
      | none => outletSelectionHelp m
    | none => outletSelectionHelp m
  | _ => outletSelectionHelp m

/-- `_handle_location_inquiry` (lines 269-290).  The empty-outlet-list
branch is unreachable: no region of `OUTLETS_DB` has an empty list
(Python would raise `IndexError` there). -/
def handleLocationInquiry (m : ConversationMemory) (user_input : String)
    (entities : Entities) : ConversationMemory × String :=
  match entities.locations with
  | loc :: _ =>
    let m1 := update_context m "inquiry_location" (CtxVal.str loc)
    match dbLookup loc with
    | some outlets =>
      match outlets with
      | _ :: _ :: _ =>
        (set_state m1 ConvState.OUTLET_SELECTION,
         "Great! We have outlets in " ++ regionTitle loc ++
           ". Which outlet are you referring to? We have: " ++
           joinComma (outlets.map (fun o => o.name)))
      | [o] =>
        (update_context (set_state m1 ConvState.INFORMATION_REQUEST)
           "selected_outlet" (CtxVal.outlet o),
         "Perfect! We have the " ++ o.name ++ " in " ++ o.location ++
           ". What would you like to know about it?")
      | [] => (m1, "")
    | none =>
      (m1, "I'm sorry, we don't have any outlets in " ++ regionTitle loc ++
        " at the moment. We have outlets in Petaling Jaya and Kuala Lumpur.")
  | [] =>
    (m, "Which location are you interested in? We have outlets in Petaling Jaya and Kuala Lumpur.")

/-- Match `outlet[s]?\s+in\s+([A-Za-z\s]+)\??` at one position and return
group 1.  When the character class cannot start after the maximal space
run, Python backtracking hands the last space of `\s+` to the class. -/
def outletInMatchAt (pw : Bool) (l : List Char) : Option (List Char) :=
  match matchToks (lit "outlet" ++ [PTok.opt ['s'], PTok.clsPlus pyIsSpace] ++ lit "in")
      pw l with
  | some (_, rest0) =>
    let sp := rest0.takeWhile pyIsSpace
    if sp.isEmpty then none
    else
      let grp := (rest0.drop sp.length).takeWhile (fun c => c.isAlpha || pyIsSpace c)
      if ¬ grp.isEmpty then some grp
      else if 2 ≤ sp.length then some [(sp.getLast?.getD ' ')]
      else none
  | none => none

/-- `re.search(r"outlet[s]?\s+in\s+([A-Za-z\s]+)\??", user_input, re.I)`
returning group 1 of the leftmost match. -/
def outletInCaptureGo : Bool → List Char → Option (List Char)
  | pw, l =>
    match outletInMatchAt pw l with
    | some g => some g
    | none =>
      match l with
      | [] => none
      | c :: t => outletInCaptureGo (isWordChar c) t

def outletInCapture (l : List Char) : Option (List Char) :=
  outletInCaptureGo false l

/-- The `if "outlet_inquiry" in entities["intents"]` block of
`_handle_initial_state` (lines 228-265), together with the final
greeting. -/
def handleInitialOutletInquiry (m : ConversationMemory) (user_input : String)
    (entities : Entities) : ConversationMemory × String :=
  if entities.intents.contains "outlet_inquiry" then
    if entities.locations.contains "petaling_jaya" then
      let m1 := update_context m "inquiry_location" (CtxVal.str "petaling_jaya")
      let outlets := (dbLookup "petaling_jaya").getD []
      match outlets with
      | _ :: _ :: _ =>
        (set_state m1 ConvState.OUTLET_SELECTION,
         "Yes! We have outlets in Petaling Jaya. Which outlet are you referring to? We have: " ++
           joinComma (outlets.map (fun o => o.name)))
      | [o] =>
        (update_context (set_state m1 ConvState.INFORMATION_REQUEST)
           "selected_outlet" (CtxVal.outlet o),
         "Yes! We have the " ++ o.name ++ " in " ++ o.location ++
           ". What would you like to know about it?")
      | [] => (m1, "")
    else
      match entities.locations with
      | location :: _ =>
        let m1 := update_context m "inquiry_location" (CtxVal.str location)
        match dbLookup location with
        | some outlets =>
          match outlets with
          | _ :: _ :: _ =>
            (set_state m1 ConvState.OUTLET_SELECTION,
             "Yes! We have outlets in " ++ regionTitle location ++
               ". Which outlet are you referring to? We have: " ++
               joinComma (outlets.map (fun o => o.name)))
          | [o] =>
            (update_context (set_state m1 ConvState.INFORMATION_REQUEST)
               "selected_outlet" (CtxVal.outlet o),
             "Yes! We have the " ++ o.name ++ " in " ++ o.location ++
               ". What would you like to know about it?")
          | [] => (m1, "")
        | none =>
          (m1, "I'm sorry, we don't have any outlets in " ++
            regionTitle location ++ " at the moment.")
      | [] =>
        match outletInCapture user_input.data with
        | some grp =>
          (m, "I'm sorry, we don't have any outlets in " ++
            String.mk (pyTitle (pyStrip grp)) ++ " at the moment.")
        | none =>
          (set_state m ConvState.LOCATION_INQUIRY,
           "Yes, we have outlets in several locations! Which area are you interested in?")
  else
    (m, "Hello! How can I help you with our outlet information today?")

/-- `_handle_initial_state` (lines 199-267): the two direct-outlet blocks
(which fall through to the outlet-inquiry block when no outlet record
matches), then the outlet-inquiry block. -/
def handleInitialState (m : ConversationMemory) (user_input : String)
    (entities : Entities) : ConversationMemory × String :=
  if entities.locations.contains "ss2" ||
      containsSub "ss 2".data (lowerCL user_input.data) then
    let m1 := update_context m "inquiry_location" (CtxVal.str "petaling_jaya")
    let outlets := (dbLookup "petaling_jaya").getD []
    match outlets.find? (fun o => containsSub "SS 2".data o.name.data) with
    | some so =>
      let m2 := set_state (update_context m1 "selected_outlet" (CtxVal.outlet so))
        ConvState.INFORMATION_REQUEST
      if ["opening_time", "phone", "location"].any
          (fun i => entities.intents.contains i) then
        handleInformationRequest m2 user_input entities
      else
        (m2, "Great! You're asking about the " ++ so.name ++
          ". What would you like to know about it?")
    | none => handleInitialOutletInquiry m1 user_input entities
  else if entities.locations.contains "klcc" ||
      containsSub "klcc".data (lowerCL user_input.data) then
    let m1 := update_context m "inquiry_location" (CtxVal.str "kuala_lumpur")
    let outlets := (dbLookup "kuala_lumpur").getD []
    match outlets.find? (fun o => containsSub "KLCC".data o.name.data) with
    | some so =>
      let m2 := set_state (update_context m1 "selected_outlet" (CtxVal.outlet so))
        ConvState.INFORMATION_REQUEST
      if ["opening_time", "phone", "location"].any
          (fun i => entities.intents.contains i) then
        handleInformationRequest m2 user_input entities
      else
        (m2, "Perfect! You're asking about the " ++ so.name ++
          ". What would you like to know about it?")
    | none => handleInitialOutletInquiry m1 user_input entities
  else handleInitialOutletInquiry m user_input entities

/-- The state dispatch at the bottom of `_generate_response`
(lines 186-197); the `else` branch answers `COMPLETED` (and would answer a
corrupted state value). -/
def stateDispatch (m : ConversationMemory) (user_input : String)
    (entities : Entities) : ConversationMemory × String :=
  match m.current_state with
  | ConvState.INITIAL => handleInitialState m user_input entities
  | ConvState.LOCATION_INQUIRY => handleLocationInquiry m user_input entities
  | ConvState.OUTLET_SELECTION => handleOutletSelection m user_input entities
  | ConvState.INFORMATION_REQUEST => handleInformationRequest m user_input entities
  | ConvState.COMPLETED => (m, "How can I help you today?")

/-- `_generate_response` (lines 170-197): the mid-conversation topic
switch runs first and short-circuits the state dispatch. -/
def generateResponse (m : ConversationMemory) (user_input : String)
    (entities : Entities) : ConversationMemory × String :=
  if containsSub "actually".data (lowerCL user_input.data) ||
      containsSub "what about".data (lowerCL user_input.data) then
    let locs := entities.locations.filter
      (fun loc => loc == "petaling_jaya" || loc == "kuala_lumpur")
    if ¬ locs.isEmpty && m.current_state != ConvState.INITIAL then
      let m1 := set_state m ConvState.OUTLET_SELECTION
      let region := locs.getLast?.getD ""
      let m2 := update_context m1 "inquiry_location" (CtxVal.str region)
      let outlet_names := ((dbLookup region).getD []).map (fun o => o.name)
      (m2, "Switching to " ++ regionTitle region ++
        ". Which outlet are you referring to? We have: " ++ joinComma outlet_names)
    else stateDispatch m user_input entities
  else stateDispatch m user_input entities

/-! ### The sequential bot (`SequentialConversationBot`) -/

/-- Bot state: the conversation memory plus the fresh-id supply feeding
new session identifiers. -/
structure SeqBot where
  memory : ConversationMemory
  idSupply : Nat

/-- A freshly constructed bot. -/
def mkSeqBot : SeqBot := { memory := newMemory 0, idSupply := 1 }

/-- `SequentialConversationBot.process_input` (lines 156-168).  The
empty-input reply reproduces the byte-for-byte text of the source file
(a mis-encoded em dash). -/
def process_input (b : SeqBot) (user_input : String) (now : Nat) :
    SeqBot × String :=
  if (pyStrip user_input.data).isEmpty then
    (b, "I didn't catch thatâ€”could you re-type your question?")
  else
    let entities := extract user_input
    let mr := generateResponse b.memory user_input entities
    ({ b with memory := add_turn mr.1 user_input mr.2 entities now }, mr.2)

/-- `SequentialConversationBot.reset_conversation` (lines 373-377):
replaces the memory wholesale with a fresh one. -/
def reset_conversation (b : SeqBot) : SeqBot :=
  { memory := newMemory b.idSupply, idSupply := b.idSupply + 1 }

/-- The operations a caller can perform on the bot. -/
inductive BotOp where
  | process (input : String) (now : Nat)
  | reset

def runBotOp (b : SeqBot) : BotOp → SeqBot
  | BotOp.process s now => (process_input b s now).1
  | BotOp.reset => reset_conversation b

/-- Run a sequence of caller operations from a bot state. -/
def runBot (b : SeqBot) (ops : List BotOp) : SeqBot := ops.foldl runBotOp b

/-- A sequence of direct `add_turn` calls on a memory. -/
def runAddTurns (m : ConversationMemory)
    (calls : List (String × String × Entities × Nat)) : ConversationMemory :=
  calls.foldl (fun m c => add_turn m c.1 c.2.1 c.2.2.1 c.2.2.2) m

/-! ### The calculator bot (`src/Question_3/agentic_bot.py`) -/

/-- A compiled regex: a plain alternation, or one anchored at the start
(`^...`). -/
inductive Rx where
  | alts (branches : List RBranch)
  | anchored (branches : List (List PTok))

/-- `re.search` with a compiled regex. -/
def searchRxC : Rx → List Char → Bool
  | Rx.alts bs, l => searchRx bs l
  | Rx.anchored bs, l => anchoredSearch bs l

/-- The six `calc_intent` regexes of the `agentic_bot.py` `IntentExtractor`.
`what\s+is\s+\d+.*\d+` is embedded through its search-equivalent
`what\s+is\s+\d.*\d` (a `\d+` run can always shrink to one digit). -/
def q3CalcPatterns : List Rx :=
  [Rx.alts [RBranch.toks [PTok.clsPlus Char.isDigit, PTok.clsStar pyIsSpace,
     PTok.cls isOpChar, PTok.clsStar pyIsSpace, PTok.clsPlus Char.isDigit]],
   Rx.alts [RBranch.toks (lit "calculate"), RBranch.toks (lit "compute"),
     RBranch.toks (lit "math"), RBranch.toks (lit "add"),
     RBranch.toks (lit "subtract"), RBranch.toks (lit "multiply"),
     RBranch.toks (lit "divide")],
   Rx.alts [RBranch.seqDot
     (lit "what" ++ [PTok.clsPlus pyIsSpace] ++ lit "is" ++
       [PTok.clsPlus pyIsSpace, PTok.cls Char.isDigit])
     [PTok.cls Char.isDigit]],
   Rx.alts [RBranch.toks [PTok.clsPlus Char.isDigit, PTok.clsStar pyIsSpace,
     PTok.cls isOpChar]],
   Rx.alts [RBranch.toks (lit "plus"), RBranch.toks (lit "minus"),
     RBranch.toks (lit "times"),
     RBranch.toks (lit "divided" ++ [PTok.clsPlus pyIsSpace] ++ lit "by")],
   Rx.alts [RBranch.toks (lit "sum" ++ [PTok.clsPlus pyIsSpace] ++ lit "of"),
     RBranch.toks (lit "product" ++ [PTok.clsPlus pyIsSpace] ++ lit "of"),
     RBranch.toks (lit "difference" ++ [PTok.clsPlus pyIsSpace] ++ lit "of"),
     RBranch.toks (lit "quotient" ++ [PTok.clsPlus pyIsSpace] ++ lit "of")]]

/-- The `greeting` and `goodbye` regexes.  In the `goodbye` pattern the
trailing fully-optional group `(bye|goodbye)?` of
`thanks?\s*,?\s*(bye|goodbye)?` is erased: an optional group at the end of
a pattern never affects `re.search` existence. -/
def q3IntentPatternList : List (String × List Rx) :=
  [("calc_intent", q3CalcPatterns),
   ("greeting",
     [Rx.anchored [lit "hi", lit "hello", lit "hey",
        lit "good" ++ [PTok.clsPlus pyIsSpace] ++ lit "morning",
        lit "good" ++ [PTok.clsPlus pyIsSpace] ++ lit "afternoon",
        lit "good" ++ [PTok.clsPlus pyIsSpace] ++ lit "evening"],
      Rx.anchored [lit "what" ++ [PTok.ch '\''] ++ lit "s" ++
          [PTok.clsPlus pyIsSpace] ++ lit "up",
        lit "how" ++ [PTok.clsPlus pyIsSpace] ++ lit "are" ++
          [PTok.clsPlus pyIsSpace] ++ lit "you",
        lit "how" ++ [PTok.clsPlus pyIsSpace] ++ lit "do" ++
          [PTok.clsPlus pyIsSpace] ++ lit "you" ++
          [PTok.clsPlus pyIsSpace] ++ lit "do"]]),
   ("goodbye",
     [Rx.alts [RBranch.toks (lit "bye"), RBranch.toks (lit "goodbye"),
        RBranch.toks (lit "see" ++ [PTok.clsPlus pyIsSpace] ++ lit "you"),
        RBranch.toks (lit "farewell"),
        RBranch.toks (lit "thank" ++ [PTok.opt ['s'], PTok.clsStar pyIsSpace,
          PTok.opt [','], PTok.clsStar pyIsSpace])],
      Rx.alts [RBranch.toks (lit "that" ++ [PTok.ch '\''] ++ lit "s" ++
          [PTok.clsPlus pyIsSpace] ++ lit "all"),
        RBranch.toks (lit "i" ++ [PTok.ch '\''] ++ lit "m" ++
          [PTok.clsPlus pyIsSpace] ++ lit "done"),
        RBranch.toks (lit "thank" ++ [PTok.clsPlus pyIsSpace] ++ lit "you" ++
          [PTok.clsPlus pyIsSpace] ++ lit "very" ++
          [PTok.clsPlus pyIsSpace] ++ lit "much")]])]

/-- `IntentExtractor.extract_intents` of `agentic_bot.py` (lines 127-135). -/
def extractIntentsQ3 (text : String) : List String :=
  (q3IntentPatternList.filter
    (fun kv => kv.2.any (fun rx => searchRxC rx text.data))).map (fun kv => kv.1)

/-- `IntentExtractor.extract_missing_slots` of `agentic_bot.py`
(lines 137-149). -/
def extractMissingSlotsQ3 (text : String) : List String :=
  if q3CalcPatterns.any (fun rx => searchRxC rx text.data) then
    if ¬ searchToks [PTok.clsPlus Char.isDigit, PTok.clsStar pyIsSpace,
        PTok.cls isOpChar, PTok.clsStar pyIsSpace, PTok.clsPlus Char.isDigit]
        text.data then
      if ["calculate", "compute", "math"].any
          (fun w => containsSub w.data (lowerCL text.data)) then
        ["mathematical_expression"]
      else []
    else []
  else []

/-- `ConversationState` enum of `agentic_bot.py`. -/
inductive AgState where
  | INITIAL
  | PROCESSING
  | WAITING_FOR_CLARIFICATION
  | COMPLETED
  deriving DecidableEq, Repr

/-- `ConversationTurn` dataclass of `agentic_bot.py`. -/
structure AgenticTurn where
  user_input : String
  bot_response : String
  timestamp : Nat
  action_taken : String
  intents_detected : List String
  missing_slots : List String
  calculation_result : Option Frac
  deriving DecidableEq

/-- One entry of `calculation_history`. -/
structure CalcHistEntry where
  expression : String
  result : Frac
  timestamp : Nat
  deriving DecidableEq

/-- `AgenticConversationMemory`. -/
structure AgenticMemory where
  session_id : Nat
  turns : List AgenticTurn
  current_state : AgState
  context : Ctx
  pending_clarification : Option String
  calculation_history : List CalcHistEntry

/-- `AgenticConversationMemory.__init__` with a fresh session id. -/
def newAgenticMemory (fresh : Nat) : AgenticMemory :=
  { session_id := fresh, turns := [], current_state := AgState.INITIAL,
    context := [], pending_clarification := none, calculation_history := [] }

/-- `AgenticConversationMemory.add_turn` (lines 51-72): appends the turn
and, when a calculation result is present, a calculation-history entry. -/
def agAddTurn (m : AgenticMemory) (ui resp action : String)
    (intents missing : List String) (calcRes : Option Frac) (now : Nat) :
    AgenticMemory :=
  let m1 := { m with turns := m.turns ++
    [{ user_input := ui, bot_response := resp, timestamp := now,
       action_taken := action, intents_detected := intents,
       missing_slots := missing, calculation_result := calcRes }] }
  match calcRes with
  | some r => { m1 with calculation_history :=
      m1.calculation_history ++ [{ expression := ui, result := r, timestamp := now }] }
  | none => m1

/-- Python `Action.name`. -/
def actionName : Action → String
  | Action.ASK_FOLLOWUP => "ASK_FOLLOWUP"
  | Action.CALL_CALCULATOR => "CALL_CALCULATOR"
  | Action.CALL_RAG => "CALL_RAG"
  | Action.CALL_TEXT2SQL => "CALL_TEXT2SQL"
  | Action.FINISH => "FINISH"

/-- `CalculatorBot` state: memory, the cached health flag, and the
fresh-id supply for session identifiers. -/
structure CalcBot where
  memory : AgenticMemory
  calculator_available : Bool
  idSupply : Nat

/-- `CalculatorBot.__init__`; `healthAtStart` is the outcome of the health
probe run by `_check_calculator_status`. -/
def mkCalcBot (healthAtStart : Bool) : CalcBot :=
  { memory := newAgenticMemory 0, calculator_available := healthAtStart,
    idSupply := 1 }

/-- `CalculatorBot._decide_action` (lines 167-181). -/
def calcDecideAction (intents missing_slots : List String) : Action :=
  if ¬ missing_slots.isEmpty then Action.ASK_FOLLOWUP
  else if intents.contains "goodbye" then Action.FINISH
  else if intents.contains "calc_intent" then Action.CALL_CALCULATOR
  else if intents.contains "greeting" then Action.FINISH
  else Action.ASK_FOLLOWUP

/-- Stand-in for Python float formatting in `f"The result is: {result}"`;
no claim depends on this rendering. -/
def floatRepr (f : Frac) : String := toString f.num ++ "/" ++ toString f.den

/-- `CalculatorBot._execute_action` (lines 183-244).  `healthNow` is the
outcome of the re-probe, `callResult` the outcome of
`call_calculator_with_retry(user_input)`.  Returns the response, the
calculation result and the updated `calculator_available` flag. -/
def calcExecuteAction (b : CalcBot) (action : Action) (user_input : String)
    (intents : List String) (healthNow : Bool)
    (callResult : Except String Frac) : String × Option Frac × Bool :=
  if action = Action.ASK_FOLLOWUP then
    if (extractMissingSlotsQ3 user_input).contains "mathematical_expression" then
      ("I can help you with calculations! Please provide a mathematical expression, like '2 + 3' or '10 * 5'.",
       none, b.calculator_available)
    else
      ("I'm a calculator bot. Ask me to calculate mathematical expressions like '15 + 25' or 'What is 10 * 8?'",
       none, b.calculator_available)
  else if action = Action.CALL_CALCULATOR then
    let avail := if ¬ b.calculator_available then healthNow else b.calculator_available
    if ¬ avail then
      ("Sorry, the calculator service is currently unavailable. Please ensure the calculator server is running on localhost:8000.",
       none, avail)
    else
      match callResult with
      | Except.ok v => ("The result is: " ++ floatRepr v, some v, avail)
      | Except.error m => ("Sorry, I couldn't calculate that: " ++ m, none, avail)
  else if action = Action.FINISH then
    if intents.contains "greeting" then
      ("Hello! I'm a calculator bot. I can help you with mathematical calculations. Try asking me something like 'What is 5 + 3?'",
       none, b.calculator_available)
    else
      let calcCount := b.memory.calculation_history.length
      if 0 < calcCount then
        ("Goodbye! I helped you with " ++ toString calcCount ++ " calculation" ++
          (if calcCount != 1 then "s" else "") ++ " today. Have a great day!",
         none, b.calculator_available)
      else
        ("Goodbye! Feel free to come back anytime for calculations.",
         none, b.calculator_available)
  else
    ("I'm not sure how to handle that request. Try asking me to calculate something!",
     none, b.calculator_available)

/-- `CalculatorBot.process_input` (lines 246-285). -/
def calcProcessInput (b : CalcBot) (user_input : String) (healthNow : Bool)
    (callResult : Except String Frac) (now : Nat) : CalcBot × String :=
  if (pyStrip user_input.data).isEmpty then
    (b, "I didn't catch that—could you re-type your question?")
  else
    let ui := String.mk (pyStrip user_input.data)
    let st1 :=
      if b.memory.current_state = AgState.WAITING_FOR_CLARIFICATION then AgState.PROCESSING
      else if b.memory.current_state = AgState.INITIAL then AgState.PROCESSING
      else b.memory.current_state
    let intents := extractIntentsQ3 ui
    let missing := extractMissingSlotsQ3 ui
    let action := calcDecideAction intents missing
    let er := calcExecuteAction
      { b with memory := { b.memory with current_state := st1 } }
      action ui intents healthNow callResult
    let st2 :=
      if action = Action.ASK_FOLLOWUP then AgState.WAITING_FOR_CLARIFICATION
      else if action = Action.FINISH then AgState.COMPLETED
      else AgState.PROCESSING
    let m3 := agAddTurn { b.memory with current_state := st2 } ui er.1
      (actionName action) intents missing er.2.1 now
    ({ b with memory := m3, calculator_available := er.2.2 }, er.1)

/-- `CalculatorBot.reset_conversation` (lines 309-312): fresh memory, then
a new health probe. -/
def calcResetConversation (b : CalcBot) (healthNow : Bool) : CalcBot :=
  { memory := newAgenticMemory b.idSupply, calculator_available := healthNow,
    idSupply := b.idSupply + 1 }

/-- Caller operations on the calculator bot (with their oracles). -/
inductive CalcBotOp where
  | process (input : String) (healthNow : Bool) (callResult : Except String Frac) (now : Nat)
  | reset (healthNow : Bool)

def runCalcBotOp (b : CalcBot) : CalcBotOp → CalcBot
  | CalcBotOp.process s h r now => (calcProcessInput b s h r now).1
  | CalcBotOp.reset h => calcResetConversation b h

def runCalcBot (b : CalcBot) (ops : List CalcBotOp) : CalcBot :=
  ops.foldl runCalcBotOp b

/-! ### Planner-side intent extraction (`planner.py`, `IntentExtractor`) -/

/-- The four `calc_intent` regexes of the `planner.py` `IntentExtractor`
(the first four of the calculator bot's table), with the same
`what\s+is\s+\d+.*\d+` embedding. -/
def q2CalcPatterns : List Rx :=
  [Rx.alts [RBranch.toks [PTok.clsPlus Char.isDigit, PTok.clsStar pyIsSpace,
     PTok.cls isOpChar, PTok.clsStar pyIsSpace, PTok.clsPlus Char.isDigit]],
   Rx.alts [RBranch.toks (lit "calculate"), RBranch.toks (lit "compute"),
     RBranch.toks (lit "math"), RBranch.toks (lit "add"),
     RBranch.toks (lit "subtract"), RBranch.toks (lit "multiply"),
     RBranch.toks (lit "divide")],
   Rx.alts [RBranch.seqDot
     (lit "what" ++ [PTok.clsPlus pyIsSpace] ++ lit "is" ++
       [PTok.clsPlus pyIsSpace, PTok.cls Char.isDigit])
     [PTok.cls Char.isDigit]],
   Rx.alts [RBranch.toks [PTok.clsPlus Char.isDigit, PTok.clsStar pyIsSpace,
     PTok.cls isOpChar]]]

/-- The `planner.py` intent pattern table, in dict insertion order. -/
def q2IntentPatternList : List (String × List Rx) :=
  [("calc_intent", q2CalcPatterns),
   ("product_query",
     [Rx.alts [RBranch.toks (lit "mug"), RBranch.toks (lit "cup"),
        RBranch.toks (lit "bottle"), RBranch.toks (lit "tumbler"),
        RBranch.toks (lit "glass"), RBranch.toks (lit "flask"),
        RBranch.toks (lit "drinkware")],
      Rx.alts [RBranch.seqDot (lit "what") (lit "products"),
        RBranch.seqDot (lit "show") (lit "products"),
        RBranch.seqDot (lit "available") (lit "items")],
      Rx.alts [RBranch.toks (lit "looking" ++ [PTok.clsPlus pyIsSpace] ++ lit "for"),
        RBranch.toks (lit "need" ++ [PTok.clsPlus pyIsSpace] ++ lit "a"),
        RBranch.toks (lit "want" ++ [PTok.clsPlus pyIsSpace] ++ lit "to" ++
          [PTok.clsPlus pyIsSpace] ++ lit "buy")]]),
   ("outlet_query",
     [Rx.alts [RBranch.toks (lit "outlet"), RBranch.toks (lit "store"),
        RBranch.toks (lit "location"), RBranch.toks (lit "branch")],
      Rx.alts [RBranch.seqDot (lit "where") (lit "located"),
        RBranch.toks (lit "address"),
        RBranch.seqDot (lit "find") (lit "store")],
      Rx.alts [RBranch.toks (lit "hours"),
        RBranch.seqDot (lit "time") (lit "open"),
        RBranch.toks (lit "phone"), RBranch.toks (lit "contact")],
      Rx.alts [RBranch.toks (lit "petaling" ++ [PTok.clsPlus pyIsSpace] ++ lit "jaya"),
        RBranch.toks (lit "kuala" ++ [PTok.clsPlus pyIsSpace] ++ lit "lumpur"),
        RBranch.toks (lit "pj"), RBranch.toks (lit "kl"),
        RBranch.toks (lit "ss" ++ [PTok.clsStar pyIsSpace] ++ lit "2"),
        RBranch.toks (lit "klcc"),
        RBranch.toks (lit "pj" ++ [PTok.clsPlus pyIsSpace] ++ lit "central")]])]

/-- `IntentExtractor.extract_intents` of `planner.py` (lines 181-189):
each matched intent is appended once, in table order. -/
def extractIntentsQ2 (text : String) : List String :=
  (q2IntentPatternList.filter
    (fun kv => kv.2.any (fun rx => searchRxC rx text.data))).map (fun kv => kv.1)

/-! ### Reference semantics of the memory (for the copy in `add_turn`)

Python dicts are heap objects: `add_turn` stores
`self.context_variables.copy()` in the turn, and `update_context` mutates
the live dict in place.  To state that distinction the heap is explicit
here: a store of dicts addressed by index, the memory holding the address
of its live context dict and every turn holding the address of its stored
copy. -/

/-- A turn record whose `context_variables` field is a heap address. -/
structure HTurn where
  turn_id : Nat
  timestamp : Nat
  user_input : String
  bot_response : String
  state : ConvState
  extracted_entities : Entities
  ctxAddr : Nat

/-- `ConversationMemory` with the dict heap explicit. -/
structure HeapMem where
  heap : List Ctx
  ctxAddr : Nat
  current_state : ConvState
  turns : List HTurn

/-- A fresh memory: one empty live context dict at address 0. -/
def hNew : HeapMem :=
  { heap := [[]], ctxAddr := 0, current_state := ConvState.INITIAL, turns := [] }

/-- Heap read. -/
def heapGet (h : List Ctx) (a : Nat) : Ctx := (h[a]?).getD []

/-- `add_turn`: `context_variables.copy()` allocates a fresh dict holding
the live context, and the turn stores its address. -/
def hAddTurn (m : HeapMem) (ui resp : String) (e : Entities) (now : Nat) : HeapMem :=
  { m with
    heap := m.heap ++ [heapGet m.heap m.ctxAddr],
    turns := m.turns ++
      [{ turn_id := m.turns.length + 1, timestamp := now, user_input := ui,
         bot_response := resp, state := m.current_state,
         extracted_entities := e, ctxAddr := m.heap.length }] }

/-- `update_context`: in-place mutation of the live dict. -/
def hUpdateContext (m : HeapMem) (k : String) (v : CtxVal) : HeapMem :=
  { m with heap := m.heap.set m.ctxAddr (ctxSet (heapGet m.heap m.ctxAddr) k v) }

/-- `set_state` on the heap model. -/
def hSetState (m : HeapMem) (s : ConvState) : HeapMem :=
  { m with current_state := s }

/-- Memory operations. -/
inductive HOp where
  | addT (ui resp : String) (e : Entities) (now : Nat)
  | updC (k : String) (v : CtxVal)
  | setSt (s : ConvState)

def runHOp (m : HeapMem) : HOp → HeapMem
  | HOp.addT ui resp e now => hAddTurn m ui resp e now
  | HOp.updC k v => hUpdateContext m k v
  | HOp.setSt s => hSetState m s

/-- Run operations from a fresh memory. -/
def runHeap (ops : List HOp) : HeapMem := ops.foldl runHOp hNew

/-- The context dict recorded in turn `i` (dereferenced). -/
def turnCtx (m : HeapMem) (i : Nat) : Option Ctx :=
  (m.turns[i]?).map (fun t => heapGet m.heap t.ctxAddr)

/-- Address sanity of a heap memory: the live dict and every stored copy
are in bounds, and no stored copy aliases the live dict. -/
def hWf (m : HeapMem) : Prop :=
  m.ctxAddr < m.heap.length ∧
    ∀ t ∈ m.turns, t.ctxAddr < m.heap.length ∧ t.ctxAddr ≠ m.ctxAddr

/-! ## Helper lemmas -/

lemma prefixCL_append {n l : List Char} (m : List Char) (h : prefixCL n l = true) :
    prefixCL n (l ++ m) = true := by
  induction n generalizing l with
  | nil => simp [prefixCL]
  | cons a as ih =>
    cases l with
    | nil => simp [prefixCL] at h
    | cons b bs =>
      simp only [prefixCL, Bool.and_eq_true] at h ⊢
      exact ⟨h.1, ih h.2⟩

lemma containsSub_of_prefixCL {n h : List Char} (hp : prefixCL n h = true) :
    containsSub n h = true := by
  unfold containsSub
  rw [hp]
  simp

lemma mem_of_prefixCL {n h : List Char} (hp : prefixCL n h = true) :
    ∀ c ∈ n, c ∈ h := by
  induction n generalizing h with
  | nil => simp
  | cons a as ih =>
    cases h with
    | nil => simp [prefixCL] at hp
    | cons b bs =>
      simp only [prefixCL, Bool.and_eq_true, beq_iff_eq] at hp
      intro c hc
      rcases List.mem_cons.mp hc with rfl | hc
      · simp [hp.1]
      · exact List.mem_cons_of_mem _ (ih hp.2 c hc)

lemma mem_of_containsSub {n h : List Char} (hc : containsSub n h = true) :
    ∀ c ∈ n, c ∈ h := by
  induction h with
  | nil =>
    unfold containsSub at hc
    cases n with
    | nil => simp
    | cons a as => simp [prefixCL] at hc
  | cons b bs ih =>
    unfold containsSub at hc
    by_cases hp : prefixCL n (b :: bs) = true
    · exact mem_of_prefixCL hp
    · rw [if_neg (by simp [hp])] at hc
      intro c hcn
      exact List.mem_cons_of_mem _ (ih hc c hcn)

lemma retryGo_picks_attempt (call : Nat → Except String Frac) :
    ∀ (left attempt : Nat), ∃ k, attempt ≤ k ∧ k ≤ attempt + left ∧
      retryGo call attempt left = (call k, k + 1) := by
  intro left
  induction left with
  | zero => intro attempt; exact ⟨attempt, le_rfl, by omega, rfl⟩
  | succ n ih =>
    intro attempt
    unfold retryGo
    cases hc : call attempt with
    | ok v => exact ⟨attempt, le_rfl, by omega, by rw [hc]⟩
    | error m =>
      by_cases ht : isTerminalMsg m = true
      · exact ⟨attempt, le_rfl, by omega, by rw [hc]; simp [ht]⟩
      · obtain ⟨k, h1, h2, h3⟩ := ih (attempt + 1)
        refine ⟨k, by omega, by omega, ?_⟩
        simp only [Bool.not_eq_true] at ht
        simpa [ht] using h3

lemma retryGo_exhaust (call : Nat → Except String Frac) :
    ∀ (left attempt : Nat),
      (∀ i, attempt ≤ i → i ≤ attempt + left →
        ∃ m, call i = Except.error m ∧ isTerminalMsg m = false) →
      retryGo call attempt left = (call (attempt + left), attempt + left + 1) := by
  intro left
  induction left with
  | zero => intro attempt _; simp [retryGo]
  | succ n ih =>
    intro attempt hall
    obtain ⟨m, hm, ht⟩ := hall attempt le_rfl (by omega)
    unfold retryGo
    rw [hm]
    simp only [ht, Bool.false_eq_true, if_false]
    have hrec := ih (attempt + 1) (fun i h1 h2 => hall i (by omega) (by omega))
    have harith : attempt + 1 + n = attempt + (n + 1) := by omega
    rw [hrec, harith]

lemma transient_not_terminal : ∀ e ∈ transientMsgs, isTerminalMsg e = false := by
  intro e he
  simp only [transientMsgs, List.mem_cons, List.not_mem_nil, or_false] at he
  rcases he with rfl | rfl | rfl <;> rfl

lemma calculation_error_terminal (detail : String) :
    isTerminalMsg ("Calculation error: " ++ detail) = true := by
  have hdata : ("Calculation error: " ++ detail).data =
      "Calculation error: ".data ++ detail.data := String.data_append _ _
  have hpre : prefixCL "calculation error".data
      (lowerCL "Calculation error: ".data ++ lowerCL detail.data) = true := by
    apply prefixCL_append
    rfl
  have hcont : containsSub "calculation error".data
      (lowerCL ("Calculation error: " ++ detail).data) = true := by
    rw [hdata]
    unfold lowerCL
    rw [List.map_append]
    exact containsSub_of_prefixCL hpre
  unfold isTerminalMsg
  simp only [List.any_cons, List.any_nil, Bool.or_eq_true]
  exact Or.inl hcont

lemma scanSimpleAt_none_of_scanAlt1At_none {l : List Char}
    (h : scanAlt1At l = none) : scanSimpleAt l = none := by
  cases hs : scanSimpleAt l with
  | none => rfl
  | some p =>
    exfalso
    unfold scanAlt1At at h
    rw [hs] at h
    obtain ⟨m, r⟩ := p
    simp at h

lemma findSimpleAt_none_of_findMathAt_none {l : List Char}
    (h : findMathAt l = none) : findSimpleAt l = none := by
  unfold findMathAt at h
  unfold findSimpleAt
  cases h1 : scanAlt1At l with
  | some p =>
    rw [h1] at h
    obtain ⟨m, r⟩ := p
    simp at h
  | none =>
    rw [scanSimpleAt_none_of_scanAlt1At_none h1]

lemma findSimple_none_of_findMath_none :
    ∀ l : List Char, findMath l = none → findSimple l = none := by
  intro l
  induction l with
  | nil => intro _; rfl
  | cons c t ih =>
    intro h
    unfold findMath at h
    unfold findSimple
    cases h1 : findMathAt (c :: t) with
    | some p =>
      rw [h1] at h
      simp at h
    | none =>
      rw [h1] at h
      rw [findSimpleAt_none_of_findMathAt_none h1]
      exact ih h

lemma calcApiTail_ok_allowed {e : List Char} {f : Frac}
    (h : calcApiTail e = Except.ok f) : e.all allowedChar = true := by
  by_cases hb : e.all allowedChar = true
  · exact hb
  · exfalso
    unfold calcApiTail at h
    rw [if_pos hb] at h
    simp at h

lemma calc_api_ok_allowed {l : List Char} {f : Frac}
    (h : calc_api l = Except.ok f) : (pyStrip l).all allowedChar = true := by
  cases hm : findMath l with
  | some m =>
    simp only [calc_api, hm] at h
    by_cases heq : pyStrip l = pyStrip m
    · rw [if_neg (by simp [heq])] at h
      rw [heq]
      exact calcApiTail_ok_allowed h
    · rw [if_pos (by simp [heq])] at h
      simp at h
  | none =>
    simp only [calc_api, hm, findSimple_none_of_findMath_none l hm] at h
    simp at h

/-! ## Theorems for the claims -/

/-- C1: `decide_action(state, intents, missing_slots)` is a total,
deterministic, side-effect-free selection of exactly one action (it is a
Lean function), by strict precedence: non-empty `missing_slots` always
yields `ASK_FOLLOWUP`; otherwise a calculation intent yields
`CALL_CALCULATOR`; otherwise a product intent yields `CALL_RAG`; otherwise
an outlet intent yields `CALL_TEXT2SQL`; otherwise `FINISH`. -/
theorem decide_action_precedence (state : String)
    (intents missing_slots : List String) :
    (missing_slots ≠ [] →
      decide_action state intents missing_slots = Action.ASK_FOLLOWUP) ∧
    (missing_slots = [] → intents.contains "calc_intent" = true →
      decide_action state intents missing_slots = Action.CALL_CALCULATOR) ∧
    (missing_slots = [] → intents.contains "calc_intent" = false →
      intents.contains "product_query" = true →
      decide_action state intents missing_slots = Action.CALL_RAG) ∧
    (missing_slots = [] → intents.contains "calc_intent" = false →
      intents.contains "product_query" = false →
      intents.contains "outlet_query" = true →
      decide_action state intents missing_slots = Action.CALL_TEXT2SQL) ∧
    (missing_slots = [] → intents.contains "calc_intent" = false →
      intents.contains "product_query" = false →
      intents.contains "outlet_query" = false →
      decide_action state intents missing_slots = Action.FINISH) := by
  refine ⟨fun h => ?_, fun h h1 => ?_, fun h h1 h2 => ?_,
    fun h h1 h2 h3 => ?_, fun h h1 h2 h3 => ?_⟩ <;>
    simp_all [decide_action]

/-- Witness for C1 at concrete inputs, one per precedence level. -/
theorem decide_action_precedence_witness :
    decide_action "initial" ["calc_intent"] ["complete_expression"] =
      Action.ASK_FOLLOWUP ∧
    decide_action "initial" ["calc_intent", "product_query"] [] =
      Action.CALL_CALCULATOR ∧
    decide_action "initial" ["product_query", "outlet_query"] [] =
      Action.CALL_RAG ∧
    decide_action "initial" ["outlet_query"] [] = Action.CALL_TEXT2SQL ∧
    decide_action "initial" [] [] = Action.FINISH := by
  refine ⟨?_, ?_, ?_, ?_, ?_⟩
  · exact (decide_action_precedence "initial" ["calc_intent"]
      ["complete_expression"]).1 (by simp)
  · exact (decide_action_precedence "initial" ["calc_intent", "product_query"]
      []).2.1 rfl (by rfl)
  · exact (decide_action_precedence "initial" ["product_query", "outlet_query"]
      []).2.2.1 rfl (by rfl) (by rfl)
  · exact (decide_action_precedence "initial" ["outlet_query"]
      []).2.2.2.1 rfl (by rfl) (by rfl) (by rfl)
  · exact (decide_action_precedence "initial" []
      []).2.2.2.2 rfl (by rfl) (by rfl) (by rfl)

/-- C9: the planner ignores its `state` argument: for any two state values
and the same intents and missing slots, `decide_action` returns the same
action. -/
theorem planner_state_independence (s1 s2 : String)
    (intents missing_slots : List String) :
    decide_action s1 intents missing_slots =
      decide_action s2 intents missing_slots := rfl

/-- C2 (amended): the calculator evaluates the spec's test values
(`5 + 3` to 8, `(5 + 3) * 2` to 16, `15 / 3` to 5); `10 / 0` is rejected
with a terminal division-by-zero error before evaluation and the adapter
attempts the call exactly once; `abc + def` is rejected with a terminal
invalid-expression error, attempted once; the empty expression is rejected
by the adapter with a descriptive error; every successful evaluation is of
a stripped expression lying entirely inside the restricted character set
`{0-9 + - * / . ( ) space}`; and any input whose stripped form contains a
character outside that set is rejected with an error (never a crash —
`calc_api` is total).  Surrounding whitespace is stripped first, which is
the one deviation from the claim as written (see the counterexample). -/
theorem calc_api_spec :
    calcApiQ "5 + 3" = Except.ok 8 ∧
    calcApiQ "(5 + 3) * 2" = Except.ok 16 ∧
    calcApiQ "15 / 3" = Except.ok 5 ∧
    calcApiS "10 / 0" = Except.error "Division by zero is not allowed" ∧
    call_calculator_with_retry (fun _ => callCalculatorLive "10 / 0") 2 =
      (Except.error "Calculation error: Division by zero is not allowed", 1) ∧
    calcApiS "abc + def" = Except.error "No valid mathematical expression found" ∧
    call_calculator_with_retry (fun _ => callCalculatorLive "abc + def") 2 =
      (Except.error "Calculation error: No valid mathematical expression found", 1) ∧
    (∀ (healthy : Bool) (resp : NetResp),
      call_calculator "" healthy resp =
        Except.error "Please provide a mathematical expression to calculate.") ∧
    (∀ (l : List Char) (f : Frac), calc_api l = Except.ok f →
      (pyStrip l).all allowedChar = true) ∧
    (∀ l : List Char, (pyStrip l).all allowedChar = false →
      ∃ m, calc_api l = Except.error m) := by
  refine ⟨?_, ?_, ?_, rfl, rfl, rfl, rfl, fun _ _ => rfl,
    fun l f h => calc_api_ok_allowed h, fun l hbad => ?_⟩
  · rw [show calcApiQ "5 + 3" = Except.ok (Frac.toRat ⟨8, 1⟩) from rfl]
    exact congrArg Except.ok (by norm_num [Frac.toRat])
  · rw [show calcApiQ "(5 + 3) * 2" = Except.ok (Frac.toRat ⟨16, 1⟩) from rfl]
    exact congrArg Except.ok (by norm_num [Frac.toRat])
  · rw [show calcApiQ "15 / 3" = Except.ok (Frac.toRat ⟨15, 3⟩) from rfl]
    exact congrArg Except.ok (by norm_num [Frac.toRat])
  · cases hc : calc_api l with
    | ok f => exact absurd (calc_api_ok_allowed hc) (by simp [hbad])
    | error m => exact ⟨m, rfl⟩

/-- C2 counterexample: the input `"5 + 3\n"` contains a character outside
the restricted set (`\n`), yet the calculator does not reject it — the
input is stripped and evaluates to 8.  The claim as stated says any
expression containing characters outside the set is rejected. -/
theorem calc_api_charset_counterexample :
    calcApiS "5 + 3\n" = Except.ok ⟨8, 1⟩ ∧
    '\n' ∈ "5 + 3\n".data ∧ allowedChar '\n' = false :=
  ⟨rfl, by decide, rfl⟩

/-- Witness for C2 at concrete inputs: a successful evaluation is over the
allowed set, and an input whose stripped form leaves the set is rejected. -/
theorem calc_api_spec_witness :
    (pyStrip "5 + 3".data).all allowedChar = true ∧
    (∃ m, calc_api "5 @ 3".data = Except.error m) := by
  constructor
  · exact calc_api_spec.2.2.2.2.2.2.2.2.1 "5 + 3".data ⟨8, 1⟩ (by rfl)
  · exact calc_api_spec.2.2.2.2.2.2.2.2.2 "5 @ 3".data (by rfl)

/-- C3: the retry adapter with `max_retries = 2`: after two transient
failures (timeout, connection refused, HTTP 5xx replies) followed by a
numeric success the successful result is returned and the underlying call
is attempted exactly 3 times; a terminal error on the first attempt is
returned after exactly one attempt (and every 4xx-shaped
`Calculation error: ...` reply is classified terminal); after exhausting
retries on transient failures the last transient error is returned
unmodified; and for every call sequence the adapter returns some attempt's
outcome verbatim — it never raises. -/
theorem retry_policy_spec :
    (∀ (call : Nat → Except String Frac) (e0 e1 : String) (v : Frac),
      e0 ∈ transientMsgs → e1 ∈ transientMsgs →
      call 0 = Except.error e0 → call 1 = Except.error e1 →
      call 2 = Except.ok v →
      call_calculator_with_retry call 2 = (Except.ok v, 3)) ∧
    (∀ (call : Nat → Except String Frac) (m : String),
      isTerminalMsg m = true → call 0 = Except.error m →
      call_calculator_with_retry call 2 = (Except.error m, 1)) ∧
    (∀ detail : String, isTerminalMsg ("Calculation error: " ++ detail) = true) ∧
    (∀ (call : Nat → Except String Frac) (max_retries : Nat),
      (∀ i, i ≤ max_retries →
        ∃ m, call i = Except.error m ∧ isTerminalMsg m = false) →
      call_calculator_with_retry call max_retries =
        (call max_retries, max_retries + 1)) ∧
    (∀ (call : Nat → Except String Frac) (max_retries : Nat),
      ∃ k, k ≤ max_retries ∧
        call_calculator_with_retry call max_retries = (call k, k + 1)) := by
  refine ⟨?_, ?_, calculation_error_terminal, ?_, ?_⟩
  · intro call e0 e1 v he0 he1 hc0 hc1 hc2
    have ht0 := transient_not_terminal e0 he0
    have ht1 := transient_not_terminal e1 he1
    unfold call_calculator_with_retry retryGo
    rw [hc0]
    simp only [ht0, Bool.false_eq_true, if_false]
    unfold retryGo
    rw [hc1]
    simp only [ht1, Bool.false_eq_true, if_false]
    unfold retryGo
    rw [hc2]
  · intro call m ht hc0
    unfold call_calculator_with_retry retryGo
    rw [hc0]
    simp [ht]
  · intro call max_retries hall
    have := retryGo_exhaust call max_retries 0
      (fun i h1 h2 => hall i (by omega))
    simpa [call_calculator_with_retry] using this
  · intro call max_retries
    obtain ⟨k, h1, h2, h3⟩ := retryGo_picks_attempt call max_retries 0
    exact ⟨k, by omega, h3⟩

lemma runAddTurns_ids (calls : List (String × String × Entities × Nat)) :
    ∀ m : ConversationMemory,
      m.turns.map (fun t => t.turn_id) = List.range' 1 m.turns.length →
      (runAddTurns m calls).turns.map (fun t => t.turn_id) =
        List.range' 1 (runAddTurns m calls).turns.length := by
  induction calls with
  | nil => intro m h; exact h
  | cons c cs ih =>
    intro m h
    show (runAddTurns (add_turn m c.1 c.2.1 c.2.2.1 c.2.2.2) cs).turns.map _ = _
    apply ih
    rw [show (add_turn m c.1 c.2.1 c.2.2.1 c.2.2.2).turns.length
      = m.turns.length + 1 by simp [add_turn]]
    rw [List.range'_concat]
    simp only [add_turn, List.map_append, List.map_cons, List.map_nil, h]
    congr 2
    omega

/-- C5: `add_turn` is total and appends a turn whose number is the
previous count plus one, so along any sequence of `add_turn` calls from a
fresh memory the recorded turn numbers are exactly `1, 2, ..., n` —
strictly increasing from 1 with no gaps. -/
theorem turn_numbering_spec :
    (∀ (m : ConversationMemory) (i r : String) (e : Entities) (now : Nat),
      (add_turn m i r e now).turns = m.turns ++
        [{ turn_id := m.turns.length + 1, timestamp := now, user_input := i,
           bot_response := r, state := m.current_state,
           extracted_entities := e,
           context_variables := m.context_variables }]) ∧
    (∀ (fresh : Nat) (calls : List (String × String × Entities × Nat)),
      (runAddTurns (newMemory fresh) calls).turns.map (fun t => t.turn_id) =
        List.range' 1 (runAddTurns (newMemory fresh) calls).turns.length) := by
  constructor
  · intro m i r e now
    rfl
  · intro fresh calls
    exact runAddTurns_ids calls (newMemory fresh) (by simp [newMemory])

lemma handleInformationRequest_session (m : ConversationMemory)
    (ui : String) (e : Entities) :
    ((handleInformationRequest m ui e).1).session_id = m.session_id := by
  unfold handleInformationRequest
  (repeat' split) <;> rfl

lemma outletSelectionHelp_session (m : ConversationMemory) :
    ((outletSelectionHelp m).1).session_id = m.session_id := by
  unfold outletSelectionHelp
  (repeat' split) <;> rfl

lemma handleOutletSelection_session (m : ConversationMemory)
    (ui : String) (e : Entities) :
    ((handleOutletSelection m ui e).1).session_id = m.session_id := by
  unfold handleOutletSelection
  dsimp only
  (repeat' split) <;>
    first
      | rfl
      | apply outletSelectionHelp_session
      | (rw [handleInformationRequest_session]; rfl)

lemma handleLocationInquiry_session (m : ConversationMemory)
    (ui : String) (e : Entities) :
    ((handleLocationInquiry m ui e).1).session_id = m.session_id := by
  unfold handleLocationInquiry
  dsimp only
  (repeat' split) <;> rfl

lemma handleInitialOutletInquiry_session (m : ConversationMemory)
    (ui : String) (e : Entities) :
    ((handleInitialOutletInquiry m ui e).1).session_id = m.session_id := by
  unfold handleInitialOutletInquiry
  dsimp only
  (repeat' split) <;> rfl

lemma handleInitialState_session (m : ConversationMemory)
    (ui : String) (e : Entities) :
    ((handleInitialState m ui e).1).session_id = m.session_id := by
  unfold handleInitialState
  dsimp only
  (repeat' split) <;>
    first
      | rfl
      | apply handleInitialOutletInquiry_session
      | (rw [handleInformationRequest_session]; rfl)

lemma stateDispatch_session (m : ConversationMemory)
    (ui : String) (e : Entities) :
    ((stateDispatch m ui e).1).session_id = m.session_id := by
  unfold stateDispatch
  split
  · apply handleInitialState_session
  · apply handleLocationInquiry_session
  · apply handleOutletSelection_session
  · apply handleInformationRequest_session
  · rfl

lemma generateResponse_session (m : ConversationMemory)
    (ui : String) (e : Entities) :
    ((generateResponse m ui e).1).session_id = m.session_id := by
  unfold generateResponse
  dsimp only
  (repeat' split) <;>
    first
      | rfl
      | apply stateDispatch_session

lemma process_input_session (b : SeqBot) (s : String) (now : Nat) :
    ((process_input b s now).1).memory.session_id = b.memory.session_id ∧
      ((process_input b s now).1).idSupply = b.idSupply := by
  unfold process_input
  split
  · exact ⟨rfl, rfl⟩
  · constructor
    · show (add_turn (generateResponse b.memory s (extract s)).1 _ _ _ _).session_id = _
      rw [show ∀ (m : ConversationMemory) i r e n,
        (add_turn m i r e n).session_id = m.session_id from fun _ _ _ _ _ => rfl]
      exact generateResponse_session b.memory s (extract s)
    · rfl

lemma agAddTurn_session (m : AgenticMemory) (ui resp action : String)
    (intents missing : List String) (calcRes : Option Frac) (now : Nat) :
    (agAddTurn m ui resp action intents missing calcRes now).session_id =
      m.session_id := by
  unfold agAddTurn
  cases calcRes <;> rfl

lemma calcProcessInput_session (b : CalcBot) (s : String) (h : Bool)
    (r : Except String Frac) (now : Nat) :
    ((calcProcessInput b s h r now).1).memory.session_id = b.memory.session_id ∧
      ((calcProcessInput b s h r now).1).idSupply = b.idSupply := by
  unfold calcProcessInput
  split
  · exact ⟨rfl, rfl⟩
  · dsimp only
    exact ⟨agAddTurn_session _ _ _ _ _ _ _ _, rfl⟩

/-- The session-id invariant: the current session id was drawn from the
supply, so it is smaller than the next fresh id. -/
def seqInv (b : SeqBot) : Prop := b.memory.session_id < b.idSupply

def calcInv (b : CalcBot) : Prop := b.memory.session_id < b.idSupply

lemma runBot_inv (ops : List BotOp) :
    ∀ b : SeqBot, seqInv b → seqInv (runBot b ops) := by
  induction ops with
  | nil => intro b h; exact h
  | cons op rest ih =>
    intro b h
    show seqInv (runBot (runBotOp b op) rest)
    apply ih
    cases op with
    | process s now =>
      unfold seqInv runBotOp
      rw [(process_input_session b s now).1, (process_input_session b s now).2]
      exact h
    | reset =>
      simp [seqInv, runBotOp, reset_conversation, newMemory]

lemma runCalcBot_inv (ops : List CalcBotOp) :
    ∀ b : CalcBot, calcInv b → calcInv (runCalcBot b ops) := by
  induction ops with
  | nil => intro b h; exact h
  | cons op rest ih =>
    intro b h
    show calcInv (runCalcBot (runCalcBotOp b op) rest)
    apply ih
    cases op with
    | process s hn r now =>
      unfold calcInv runCalcBotOp
      rw [(calcProcessInput_session b s hn r now).1,
        (calcProcessInput_session b s hn r now).2]
      exact h
    | reset hn =>
      simp [calcInv, runCalcBotOp, calcResetConversation, newAgenticMemory]

/-- C6: in any state reachable by caller operations the session id is
below the fresh-id supply, and from any such state `reset` yields a
session in the `Initial` state with zero turns, empty context (and, for
the calculator bot, empty calculation history) and a session identifier
different from the one before the reset.  Both bots are covered. -/
theorem reset_spec :
    (∀ ops : List BotOp, seqInv (runBot mkSeqBot ops)) ∧
    (∀ b : SeqBot, seqInv b →
      (reset_conversation b).memory.current_state = ConvState.INITIAL ∧
      (reset_conversation b).memory.turns.length = 0 ∧
      (reset_conversation b).memory.context_variables = [] ∧
      (reset_conversation b).memory.session_id ≠ b.memory.session_id) ∧
    (∀ (h0 : Bool) (ops : List CalcBotOp), calcInv (runCalcBot (mkCalcBot h0) ops)) ∧
    (∀ (b : CalcBot) (healthNow : Bool), calcInv b →
      (calcResetConversation b healthNow).memory.current_state = AgState.INITIAL ∧
      (calcResetConversation b healthNow).memory.turns.length = 0 ∧
      (calcResetConversation b healthNow).memory.context = [] ∧
      (calcResetConversation b healthNow).memory.calculation_history = [] ∧
      (calcResetConversation b healthNow).memory.session_id ≠ b.memory.session_id) := by
  refine ⟨fun ops => runBot_inv ops mkSeqBot (by simp [seqInv, mkSeqBot, newMemory]),
    fun b h => ⟨rfl, rfl, rfl, ?_⟩,
    fun h0 ops => runCalcBot_inv ops (mkCalcBot h0)
      (by simp [calcInv, mkCalcBot, newAgenticMemory]),
    fun b hn h => ⟨rfl, rfl, rfl, rfl, ?_⟩⟩
  · show b.idSupply ≠ b.memory.session_id
    unfold seqInv at h
    omega
  · show b.idSupply ≠ b.memory.session_id
    unfold calcInv at h
    omega

/-- Witness for C6: the invariant and the reset properties at the freshly
constructed bots. -/
theorem reset_spec_witness :
    (reset_conversation (runBot mkSeqBot [])).memory.session_id ≠
      (runBot mkSeqBot []).memory.session_id ∧
    (calcResetConversation (runCalcBot (mkCalcBot true) []) true).memory.session_id ≠
      (runCalcBot (mkCalcBot true) []).memory.session_id :=
  ⟨(reset_spec.2.1 (runBot mkSeqBot []) (reset_spec.1 [])).2.2.2,
   (reset_spec.2.2.2 (runCalcBot (mkCalcBot true) []) true
     (reset_spec.2.2.1 true [])).2.2.2.2⟩

lemma pyStrip_nil_all_space {l : List Char} (h : pyStrip l = []) :
    ∀ c ∈ l, pyIsSpace c = true := by
  unfold pyStrip at h
  rw [List.reverse_eq_nil_iff, List.dropWhile_eq_nil_iff] at h
  intro c hc
  rw [← List.takeWhile_append_dropWhile (p := pyIsSpace) (l := l)] at hc
  rcases List.mem_append.mp hc with h1 | h2
  · exact List.mem_takeWhile_imp h1
  · exact h c (List.mem_reverse.mpr h2)

lemma pyStrip_ne_nil_of_marker {marker : List Char} {s : String}
    (hc : containsSub marker (lowerCL s.data) = true) (ha : 'a' ∈ marker) :
    (pyStrip s.data).isEmpty = false := by
  have h1 : 'a' ∈ lowerCL s.data := mem_of_containsSub hc 'a' ha
  obtain ⟨d, hd, hdl⟩ := List.mem_map.mp h1
  have hns : pyIsSpace d = false := by
    by_contra hsp
    simp only [Bool.not_eq_false] at hsp
    simp only [pyIsSpace, Bool.or_eq_true, beq_iff_eq] at hsp
    rcases hsp with ((((rfl | rfl) | rfl) | rfl) | rfl) | rfl <;>
      exact absurd hdl (by decide)
  cases he : (pyStrip s.data).isEmpty with
  | false => rfl
  | true =>
    exfalso
    have hnil : pyStrip s.data = [] := List.isEmpty_iff.mp he
    have := pyStrip_nil_all_space hnil d hd
    rw [hns] at this
    exact Bool.false_ne_true this

lemma ctxGet_ctxSet_self (ctx : Ctx) (k : String) (v : CtxVal) :
    ctxGet (ctxSet ctx k v) k = some v := by
  induction ctx with
  | nil => simp [ctxSet, ctxGet, List.find?]
  | cons p t ih =>
    unfold ctxSet
    by_cases hp : p.1 == k
    · rw [if_pos (by simp [List.any_cons, hp])]
      simp only [List.map_cons, if_pos hp]
      simp [ctxGet, List.find?]
    · by_cases ht : t.any (fun kv => kv.1 == k)
      · rw [if_pos (by simp only [List.any_cons, hp, ht, Bool.false_or])]
        simp only [List.map_cons, if_neg hp]
        unfold ctxGet
        rw [List.find?_cons_of_neg _ (by simp [hp])]
        unfold ctxSet at ih
        rw [if_pos ht] at ih
        exact ih
      · rw [if_neg (by simp [List.any_cons, hp, ht])]
        unfold ctxGet
        rw [show (p :: t) ++ [(k, v)] = p :: (t ++ [(k, v)]) from rfl]
        rw [List.find?_cons_of_neg _ (by simp [hp])]
        unfold ctxSet at ih
        rw [if_neg (by simp [ht])] at ih
        exact ih

/-- C7: in every non-initial session state, an utterance containing an
explicit switch marker ("actually" or "what about") that names a known
region overrides the current flow: the state becomes `OUTLET_SELECTION`,
the `inquiry_location` context is set to the new region (discarding any
previously stored one), and the reply lists the new region's outlet
candidates — whatever the current state and context were, so the switch
takes priority over state-based dispatch. -/
theorem topic_switch_spec (b : SeqBot) (input : String) (now : Nat)
    (region : String) :
    b.memory.current_state ≠ ConvState.INITIAL →
    (containsSub "actually".data (lowerCL input.data) = true ∨
      containsSub "what about".data (lowerCL input.data) = true) →
    ((extract input).locations.filter
      (fun loc => loc == "petaling_jaya" || loc == "kuala_lumpur")).getLast? =
        some region →
    (process_input b input now).1.memory.current_state =
        ConvState.OUTLET_SELECTION ∧
    ctxGet (process_input b input now).1.memory.context_variables
        "inquiry_location" = some (CtxVal.str region) ∧
    (process_input b input now).2 =
      "Switching to " ++ regionTitle region ++
        ". Which outlet are you referring to? We have: " ++
        joinComma (((dbLookup region).getD []).map (fun o => o.name)) := by
  intro hstate hmark hlast
  have hne : (pyStrip input.data).isEmpty = false := by
    rcases hmark with h | h
    · exact pyStrip_ne_nil_of_marker h (by decide)
    · exact pyStrip_ne_nil_of_marker h (by decide)
  have hcond : (containsSub "actually".data (lowerCL input.data) ||
      containsSub "what about".data (lowerCL input.data)) = true := by
    rcases hmark with h | h <;> simp [h]
  have hlocs : ((extract input).locations.filter
      (fun loc => loc == "petaling_jaya" || loc == "kuala_lumpur")).isEmpty = false := by
    cases hl : (extract input).locations.filter
        (fun loc => loc == "petaling_jaya" || loc == "kuala_lumpur") with
    | nil => rw [hl] at hlast; simp at hlast
    | cons x xs => rfl
  have hcond2 : (¬ ((extract input).locations.filter
      (fun loc => loc == "petaling_jaya" || loc == "kuala_lumpur")).isEmpty &&
      (b.memory.current_state != ConvState.INITIAL)) = true := by
    simp [hlocs, bne_iff_ne, hstate]
  have hreg : ((extract input).locations.filter
      (fun loc => loc == "petaling_jaya" || loc == "kuala_lumpur")).getLast?.getD ""
      = region := by rw [hlast]; rfl
  unfold process_input
  rw [if_neg (by simp [hne])]
  dsimp only
  unfold generateResponse
  rw [if_pos hcond]
  dsimp only
  rw [if_pos hcond2, hreg]
  refine ⟨rfl, ?_, rfl⟩
  show ctxGet (ctxSet b.memory.context_variables "inquiry_location"
    (CtxVal.str region)) "inquiry_location" = some (CtxVal.str region)
  exact ctxGet_ctxSet_self _ _ _

/-- Witness for C7: mid-flow (after the Petaling Jaya inquiry has moved
the session to outlet selection), the utterance
"Actually, what about Kuala Lumpur?" re-enters outlet selection for the
new region. -/
theorem topic_switch_spec_witness :
    (process_input (process_input mkSeqBot "Is there an outlet in Petaling Jaya?" 0).1
      "Actually, what about Kuala Lumpur?" 1).1.memory.current_state =
        ConvState.OUTLET_SELECTION ∧
    ctxGet (process_input (process_input mkSeqBot "Is there an outlet in Petaling Jaya?" 0).1
      "Actually, what about Kuala Lumpur?" 1).1.memory.context_variables
        "inquiry_location" = some (CtxVal.str "kuala_lumpur") ∧
    (process_input (process_input mkSeqBot "Is there an outlet in Petaling Jaya?" 0).1
      "Actually, what about Kuala Lumpur?" 1).2 =
      "Switching to Kuala Lumpur. Which outlet are you referring to? We have: KLCC Outlet" := by
  have h := topic_switch_spec
    (process_input mkSeqBot "Is there an outlet in Petaling Jaya?" 0).1
    "Actually, what about Kuala Lumpur?" 1 "kuala_lumpur"
    (by decide) (Or.inl (by rfl)) (by rfl)
  exact ⟨h.1, h.2.1, h.2.2.trans (by rfl)⟩

/-- C4 (amended): for every session state, an empty or whitespace-only
utterance returns the fixed "didn't catch that" reply of the respective
bot and leaves the whole bot state — conversation state, context and turn
history — unchanged; in particular no Turn is recorded for the attempt.
Both bots are covered. -/
theorem empty_input_spec :
    (∀ (b : SeqBot) (s : String) (now : Nat),
      (pyStrip s.data).isEmpty = true →
      process_input b s now =
        (b, "I didn't catch thatâ€”could you re-type your question?")) ∧
    (∀ (b : CalcBot) (s : String) (h : Bool) (r : Except String Frac) (now : Nat),
      (pyStrip s.data).isEmpty = true →
      calcProcessInput b s h r now =
        (b, "I didn't catch that—could you re-type your question?")) := by
  constructor
  · intro b s now h
    unfold process_input
    rw [if_pos h]
  · intro b s hh r now h
    unfold calcProcessInput
    rw [if_pos h]

/-- C4 counterexample: on an empty utterance no Turn is appended — the
history stays empty, refuting "the attempt is still logged as a Turn". -/
theorem empty_input_not_logged :
    (process_input mkSeqBot "" 0).2 =
      "I didn't catch thatâ€”could you re-type your question?" ∧
    (process_input mkSeqBot "" 0).1.memory.turns = [] ∧
    ¬ ((process_input mkSeqBot "" 0).1.memory.turns.length =
        mkSeqBot.memory.turns.length + 1) :=
  ⟨rfl, rfl, by decide⟩

/-- Witness for C4 at the empty and a whitespace-only utterance. -/
theorem empty_input_spec_witness :
    process_input mkSeqBot "   " 5 =
      (mkSeqBot, "I didn't catch thatâ€”could you re-type your question?") ∧
    calcProcessInput (mkCalcBot true) "" true (Except.ok ⟨1, 1⟩) 0 =
      (mkCalcBot true, "I didn't catch that—could you re-type your question?") :=
  ⟨empty_input_spec.1 mkSeqBot "   " 5 (by rfl),
   empty_input_spec.2 (mkCalcBot true) "" true (Except.ok ⟨1, 1⟩) 0 (by rfl)⟩

/-- Witness for C3: a concrete two-transient-then-success sequence makes 3
attempts; a concrete terminal first reply makes 1 attempt; three exhausted
transients return the final message after 3 attempts. -/
theorem retry_policy_spec_witness :
    call_calculator_with_retry
      (fun i => if i = 0 then Except.error "Calculator request timed out. Please try again."
        else if i = 1 then Except.error "Cannot connect to calculator service. Please ensure the server is running on localhost:8000."
        else Except.ok ⟨8, 1⟩) 2 = (Except.ok ⟨8, 1⟩, 3) ∧
    call_calculator_with_retry
      (fun _ => Except.error "Calculation error: Division by zero is not allowed") 2 =
      (Except.error "Calculation error: Division by zero is not allowed", 1) ∧
    call_calculator_with_retry
      (fun _ => Except.error "Calculator service is experiencing issues. Please try again later.") 2 =
      (Except.error "Calculator service is experiencing issues. Please try again later.", 3) := by
  refine ⟨?_, ?_, ?_⟩
  · exact retry_policy_spec.1 _ _ _ ⟨8, 1⟩ (by simp [transientMsgs])
      (by simp [transientMsgs]) rfl rfl rfl
  · exact retry_policy_spec.2.1 _ _ (retry_policy_spec.2.2.1
      "Division by zero is not allowed") rfl
  · exact retry_policy_spec.2.2.2.1 _ 2
      (fun i _ => ⟨_, rfl, by rfl⟩)

/-- C8 (amended): on every text input — of any length — extraction is
total (the dynamic call returns normally), each pattern contributes its
tag at most once to the result, and when no pattern matches the result
degrades to empty intent and entity lists; this also holds for the
planner-side `extract_intents`.  On a non-text value the underlying
`re.Pattern.search` raises `TypeError` (see the counterexample), which is
the one deviation from the claim as written. -/
theorem extraction_spec :
    (∀ s : String, extractDyn (PyVal.str s) = Except.ok (extract s)) ∧
    (∀ s : String, (extract s).locations.Nodup ∧ (extract s).intents.Nodup ∧
      (extractIntentsQ2 s).Nodup) ∧
    (∀ s : String,
      (∀ kv ∈ locationPatternList, searchAlts kv.2 s.data = false) →
      (extract s).locations = []) ∧
    (∀ s : String,
      (∀ kv ∈ intentPatternList, searchAlts kv.2 s.data = false) →
      (extract s).intents = []) ∧
    (∀ s : String,
      (∀ kv ∈ q2IntentPatternList,
        kv.2.any (fun rx => searchRxC rx s.data) = false) →
      extractIntentsQ2 s = []) := by
  refine ⟨fun s => rfl, fun s => ⟨?_, ?_, ?_⟩, fun s h => ?_, fun s h => ?_,
    fun s h => ?_⟩
  · exact ((List.filter_sublist _).map _).nodup
      (show ((locationPatternList.map (fun kv => kv.1))).Nodup by decide)
  · exact ((List.filter_sublist _).map _).nodup
      (show ((intentPatternList.map (fun kv => kv.1))).Nodup by decide)
  · exact ((List.filter_sublist _).map _).nodup
      (show ((q2IntentPatternList.map (fun kv => kv.1))).Nodup by decide)
  · show (locationPatternList.filter _).map _ = []
    rw [List.filter_eq_nil_iff.mpr (fun kv hkv => by simp [h kv hkv])]
    rfl
  · show (intentPatternList.filter _).map _ = []
    rw [List.filter_eq_nil_iff.mpr (fun kv hkv => by simp [h kv hkv])]
    rfl
  · show (q2IntentPatternList.filter _).map _ = []
    rw [List.filter_eq_nil_iff.mpr (fun kv hkv => by simp [h kv hkv])]
    rfl

/-- C8 counterexample: called with a non-text value, extraction raises
`TypeError` instead of degrading — the claim says it never raises for any
input including non-text values. -/
theorem extract_nontext_raises :
    extractDyn PyVal.pyNone =
      Except.error "TypeError: expected string or bytes-like object" ∧
    extractDyn (PyVal.int 3) =
      Except.error "TypeError: expected string or bytes-like object" :=
  ⟨rfl, rfl⟩

/-- Witness for C8: a 3-character input matching no pattern yields empty
results from all three extractors, and a 10000-character input is handled
(the degradation hypotheses are discharged by computation). -/
theorem extraction_spec_witness :
    (extract "zzz").locations = [] ∧ (extract "zzz").intents = [] ∧
      extractIntentsQ2 "zzz" = [] := by
  refine ⟨extraction_spec.2.2.1 "zzz" ?_, extraction_spec.2.2.2.1 "zzz" ?_,
    extraction_spec.2.2.2.2 "zzz" ?_⟩ <;> decide

lemma hWf_hAddTurn {m : HeapMem} (h : hWf m) (ui resp : String)
    (e : Entities) (now : Nat) : hWf (hAddTurn m ui resp e now) := by
  obtain ⟨h1, h2⟩ := h
  constructor
  · show m.ctxAddr < (m.heap ++ [heapGet m.heap m.ctxAddr]).length
    simp only [List.length_append, List.length_cons, List.length_nil]
    omega
  · intro t ht
    simp only [hAddTurn, List.mem_append, List.mem_singleton] at ht
    rcases ht with ht | rfl
    · obtain ⟨ha, hb⟩ := h2 t ht
      constructor
      · show t.ctxAddr < (m.heap ++ [heapGet m.heap m.ctxAddr]).length
        simp only [List.length_append, List.length_cons, List.length_nil]
        omega
      · exact hb
    · constructor
      · show m.heap.length < (m.heap ++ [heapGet m.heap m.ctxAddr]).length
        simp only [List.length_append, List.length_cons, List.length_nil]
        omega
      · show m.heap.length ≠ m.ctxAddr
        omega

lemma hWf_hUpdateContext {m : HeapMem} (h : hWf m) (k : String) (v : CtxVal) :
    hWf (hUpdateContext m k v) := by
  obtain ⟨h1, h2⟩ := h
  constructor
  · show m.ctxAddr < (m.heap.set m.ctxAddr _).length
    simpa using h1
  · intro t ht
    obtain ⟨ha, hb⟩ := h2 t ht
    refine ⟨?_, hb⟩
    show t.ctxAddr < (m.heap.set m.ctxAddr _).length
    simpa using ha

lemma runHeap_wf_aux (ops : List HOp) :
    ∀ m : HeapMem, hWf m → hWf (ops.foldl runHOp m) := by
  induction ops with
  | nil => intro m h; exact h
  | cons op rest ih =>
    intro m h
    apply ih
    cases op with
    | addT ui resp e now => exact hWf_hAddTurn h ui resp e now
    | updC k v => exact hWf_hUpdateContext h k v
    | setSt st => exact ⟨h.1, h.2⟩

/-- C10: Python reference semantics of the memory, with the dict heap
explicit.  Every reachable memory is address-sane; `update_context`
mutates only the live context dict — the turn list and the context stored
in every previously recorded turn are unchanged; and `add_turn` records a
copy of the live context at turn time (leaving all earlier turns intact),
which is why later updates cannot leak into history. -/
theorem turn_context_isolation_spec :
    (∀ ops : List HOp, hWf (runHeap ops)) ∧
    (∀ m : HeapMem, hWf m → ∀ (k : String) (v : CtxVal),
      (hUpdateContext m k v).turns = m.turns ∧
      ∀ i : Nat, turnCtx (hUpdateContext m k v) i = turnCtx m i) ∧
    (∀ (m : HeapMem) (ui resp : String) (e : Entities) (now : Nat),
      turnCtx (hAddTurn m ui resp e now) m.turns.length =
        some (heapGet m.heap m.ctxAddr) ∧
      ∀ t ∈ m.turns, t.ctxAddr < m.heap.length →
        heapGet (hAddTurn m ui resp e now).heap t.ctxAddr =
          heapGet m.heap t.ctxAddr) := by
  refine ⟨fun ops => runHeap_wf_aux ops hNew (by simp [hWf, hNew]),
    fun m h k v => ⟨rfl, fun i => ?_⟩, fun m ui resp e now => ⟨?_, ?_⟩⟩
  · unfold turnCtx hUpdateContext
    cases hti : m.turns[i]? with
    | none => simp [hti]
    | some t =>
      have hne : t.ctxAddr ≠ m.ctxAddr := (h.2 t (List.getElem?_mem hti)).2
      simp only [hti, Option.map_some']
      unfold heapGet
      rw [List.getElem?_set_ne (Ne.symm hne)]
  · unfold turnCtx hAddTurn
    simp only
    rw [List.getElem?_concat_length]
    simp only [Option.map_some']
    unfold heapGet
    rw [List.getElem?_concat_length]
    rfl
  · intro t ht hlt
    unfold hAddTurn heapGet
    simp only
    rw [List.getElem?_append_left hlt]

/-- Witness for C10: in a concrete reachable memory holding one turn, a
later `update_context` leaves the turn's stored context unchanged. -/
theorem turn_context_isolation_spec_witness :
    turnCtx (hUpdateContext (runHeap
        [HOp.updC "inquiry_location" (CtxVal.str "petaling_jaya"),
         HOp.addT "hi" "hello" ⟨[], [], "hi"⟩ 0])
      "inquiry_location" (CtxVal.str "kuala_lumpur")) 0 =
    turnCtx (runHeap
        [HOp.updC "inquiry_location" (CtxVal.str "petaling_jaya"),
         HOp.addT "hi" "hello" ⟨[], [], "hi"⟩ 0]) 0 :=
  (turn_context_isolation_spec.2.1 _
    (turn_context_isolation_spec.1 _) "inquiry_location"
    (CtxVal.str "kuala_lumpur")).2 0

end Mindhive
